import Mathlib

/-!
# Verification of the invoice-extraction core (Hakatonchiksv)

Shallow embedding of the document text-acquisition pipeline
(`app/pdf_processor.py`, `app/main.py`) and of the structured extraction
engine (`app/data_extractor.py`) of the repository, together with proofs
settling the frozen claims about its specification.

Modelling conventions:
* Python strings are Lean `String`s (both are sequences of unicode code
  points; Python `len` = `String.length`).
* Python `float` is modelled exactly: a finite value is a rational
  (`ℚ`); the special values `inf`, `-inf`, `nan` are separate
  constructors.  Every concrete number appearing in the claims
  (`243375.00`, `1659649.00`, `0.0`) is exactly representable in binary64,
  so on the inputs the claims mention the exact model and IEEE-754
  evaluation agree.
* `re` pattern matching is embedded by a backtracking engine
  (leftmost match, left-biased alternation, greedy/lazy repetition,
  capture groups, look-ahead) over patterns kept verbatim from the
  source (braces of counted repetitions written `\x7b`/`\x7d`).
* External collaborators (the Tesseract recognizer, the PDF
  native-layer readers, the optional ML validator) are parameters of
  the embedded functions, as dictated by the spec's collaborator
  contracts (recognizers are total and never raise).
-/

set_option maxRecDepth 200000

namespace Invoice

/-! ## Python string primitives -/

/-- Python whitespace (`str.strip`, `\s` for the ASCII texts handled here):
space, tab, newline, carriage return, vertical tab, form feed. -/
def pySpaceChar (c : Char) : Bool :=
  c = ' ' || c = '\t' || c = '\n' || c = '\x0d' || c = '\x0b' || c = '\x0c'

/-- ASCII decimal digit — what `\d` and `str.isdigit` recognise on the
texts of this program. -/
def pyDigitChar (c : Char) : Bool :=
  '0' ≤ c && c ≤ '9'

/-- Lower-casing for the Latin and Cyrillic letters the program handles
(Python `str.lower`). -/
def pyLowerChar (c : Char) : Char :=
  if 'A' ≤ c && c ≤ 'Z' then Char.ofNat (c.toNat + 32)
  else if 'А' ≤ c && c ≤ 'Я' then Char.ofNat (c.toNat + 32)
  else if c = 'Ё' then 'ё'
  else c

/-- Upper-casing for the Latin and Cyrillic letters the program handles
(Python `str.upper`). -/
def pyUpperChar (c : Char) : Char :=
  if 'a' ≤ c && c ≤ 'z' then Char.ofNat (c.toNat - 32)
  else if 'а' ≤ c && c ≤ 'я' then Char.ofNat (c.toNat - 32)
  else if c = 'ё' then 'Ё'
  else c

def pyLower (s : String) : String := String.mk (s.data.map pyLowerChar)

def pyUpper (s : String) : String := String.mk (s.data.map pyUpperChar)

/-- Python `str.strip()` on a char list. -/
def pyStripList (l : List Char) : List Char :=
  ((l.dropWhile pySpaceChar).reverse.dropWhile pySpaceChar).reverse

/-- Python `str.strip()`. -/
def pyStrip (s : String) : String := String.mk (pyStripList s.data)

/-- Python `str.lstrip()`. -/
def pyLStrip (s : String) : String := String.mk (s.data.dropWhile pySpaceChar)

/-- Python `len(s)` (number of code points). -/
def pyLen (s : String) : Nat := s.data.length

/-- Python `s.isdigit()` for ASCII digits: non-empty and all digits. -/
def pyIsDigit (s : String) : Bool :=
  !s.data.isEmpty && s.data.all pyDigitChar

/-- Char-list prefix test. -/
def isPrefixL : List Char → List Char → Bool
  | [], _ => true
  | _ :: _, [] => false
  | a :: as, b :: bs => a = b && isPrefixL as bs

/-- Python `"sep".join(parts)`. -/
def pyJoin (sep : String) (parts : List String) : String :=
  String.intercalate sep parts

/-- Split a char list at every newline. -/
def splitNlL : List Char → List (List Char)
  | [] => [[]]
  | c :: cs =>
    if c = '\n' then [] :: splitNlL cs
    else
      match splitNlL cs with
      | [] => [[c]]
      | p :: ps => (c :: p) :: ps

/-- Python `s.split('\n')`. -/
def pySplitNl (s : String) : List String :=
  (splitNlL s.data).map String.mk

/-- Python `s.split()` (split on whitespace runs, dropping empties). -/
def pySplitWs (s : String) : List String :=
  let rec go : List Char → List Char → List String
    | acc, [] => if acc.isEmpty then [] else [String.mk acc.reverse]
    | acc, c :: cs =>
      if pySpaceChar c then
        if acc.isEmpty then go [] cs else String.mk acc.reverse :: go [] cs
      else go (c :: acc) cs
  go [] s.data

/-- Python `s.replace(a, b)` on char lists: replace non-overlapping
occurrences left to right (`a` is never empty in this program).  The
fuel, set to the list length, keeps the recursion structural; every
step consumes at least one character, so it never runs out. -/
def pyReplaceGo (a b : List Char) : Nat → List Char → List Char
  | 0, l => l
  | _, [] => []
  | Nat.succ fuel, c :: cs =>
    if a ≠ [] ∧ isPrefixL a (c :: cs) = true then
      b ++ pyReplaceGo a b fuel ((c :: cs).drop a.length)
    else c :: pyReplaceGo a b fuel cs

/-- Python `s.replace(a, b)` (all occurrences). -/
def pyReplace (s a b : String) : String :=
  String.mk (pyReplaceGo a.data b.data s.data.length s.data)

/-- `l.take n` of a string: Python `s[:n]` for `n ≥ 0`. -/
def pyTake (s : String) (n : Nat) : String := String.mk (s.data.take n)

/-- Python `s[n:]` for `n ≥ 0`. -/
def pyDrop (s : String) (n : Nat) : String := String.mk (s.data.drop n)

/-- The pattern `needle` occurs in `hay` starting at index `i`
(both as code-point sequences). -/
def occursAt (needle hay : String) (i : Nat) : Bool :=
  isPrefixL needle.data (hay.data.drop i)

/-- Python `hay.find(needle)`: index of the first occurrence, `-1` when
absent (searched over code-point indices). -/
def pyFind (hay needle : String) : Int :=
  let n := hay.data.length
  let idxs := (List.range (n + 1)).filter (fun i => occursAt needle hay i)
  match idxs with
  | [] => -1
  | i :: _ => (i : Int)

/-- Python `s.count(sub)` for a single-char `sub` (the only use in the
source is counting `'"'` and `' '`). -/
def pyCountChar (s : String) (c : Char) : Nat :=
  (s.data.filter (fun d => d = c)).length

/-- Python truthiness of a string. -/
def pyTruthy (s : String) : Bool := s ≠ ""

/-! ## Python floats (`float(...)`) modelled exactly -/

/-- A Python float: finite values are kept exactly as rationals (every
numeric literal appearing in the claims is exactly representable in
binary64, so the exact model agrees with IEEE-754 on them). -/
inductive PyFloat where
  | finite (q : ℚ)
  | inf
  | neginf
  | nan
  deriving DecidableEq, Repr

/-- Parse an unsigned run of digits (with Python 3.6 underscore
separators between digits) into (value, number of digits, rest).
Returns `none` if the run is empty or an underscore is misplaced. -/
def parseDigitsU : List Char → Option (Nat × Nat × List Char)
  | [] => none
  | c :: cs =>
    if pyDigitChar c then
      let rec go (acc ndig : Nat) : List Char → (Nat × Nat × List Char)
        | [] => (acc, ndig, [])
        | d :: ds =>
          if pyDigitChar d then go (acc * 10 + (d.toNat - '0'.toNat)) (ndig + 1) ds
          else if d = '_' then
            match ds with
            | e :: es =>
              if pyDigitChar e then go (acc * 10 + (e.toNat - '0'.toNat)) (ndig + 1) es
              else (acc, ndig, d :: ds)
            | [] => (acc, ndig, d :: ds)
          else (acc, ndig, d :: ds)
      some (go (c.toNat - '0'.toNat) 1 cs)
    else none

/-- Case-insensitive literal-word test, consuming the word. -/
def eatWordCI (w : List Char) (l : List Char) : Option (List Char) :=
  match w, l with
  | [], rest => some rest
  | _ :: _, [] => none
  | a :: as, b :: bs => if pyLowerChar b = a then eatWordCI as bs else none

/-- The numeric body of Python `float(str)` after sign handling:
`digits [. digits] [e[sign]digits]`, `.digits`, `digits.`, or the words
`inf`/`infinity`/`nan`. -/
def pyFloatBody (l : List Char) : Option PyFloat :=
  match eatWordCI "infinity".data l with
  | some [] => some .inf
  | _ =>
  match eatWordCI "inf".data l with
  | some [] => some .inf
  | _ =>
  match eatWordCI "nan".data l with
  | some [] => some .nan
  | _ =>
  -- mantissa: intDigits? . fracDigits? with at least one digit present
  let (ipart, irest) :=
    match parseDigitsU l with
    | some (v, n, rest) => ((some (v, n) : Option (Nat × Nat)), rest)
    | none => (none, l)
  let (fpart, frest) :=
    match irest with
    | '.' :: cs =>
      (match parseDigitsU cs with
       | some (v, n, rest) => ((some (v, n) : Option (Nat × Nat)), rest)
       | none => (some (0, 0), cs))
    | _ => (none, irest)
  match ipart, fpart with
  | none, none => none
  | none, some (_, 0) => none   -- "." alone or ".e5"
  | _, _ =>
    let iv : Nat := (ipart.map Prod.fst).getD 0
    let fv : Nat := (fpart.map Prod.fst).getD 0
    let fn : Nat := (fpart.map (fun p => p.2)).getD 0
    -- the mantissa is (iv * 10^fn + fv) / 10^fn; all arithmetic is kept
    -- in ℕ/ℤ and the rational is built once, in lowest terms
    let mantNum : Nat := iv * 10 ^ fn + fv
    match frest with
    | [] => some (.finite (mkRat (mantNum : Int) (10 ^ fn)))
    | e :: cs =>
      if e = 'e' || e = 'E' then
        let (eneg, cs') : (Bool × List Char) :=
          match cs with
          | '+' :: ds => (false, ds)
          | '-' :: ds => (true, ds)
          | _ => (false, cs)
        match parseDigitsU cs' with
        | some (ev, _, []) =>
          if eneg then some (.finite (mkRat (mantNum : Int) (10 ^ fn * 10 ^ ev)))
          else some (.finite (mkRat ((mantNum : Int) * (10 : Int) ^ ev) (10 ^ fn)))
        | _ => none
      else none

/-- Python `float(str)`: optional surrounding whitespace, optional sign,
then the numeric body; raises `ValueError` (here: `none`) otherwise. -/
def pyFloat (s : String) : Option PyFloat :=
  let l := pyStripList s.data
  match l with
  | '+' :: cs => pyFloatBody cs
  | '-' :: cs =>
    (pyFloatBody cs).map (fun f =>
      match f with
      | .finite q => .finite (mkRat (-q.num) q.den)
      | .inf => .neginf
      | .neginf => .inf
      | .nan => .nan)
  | cs => pyFloatBody cs

/-! ## `InvoiceDataExtractor._clean_number` -/

/-- `_clean_number` (`app/data_extractor.py:1175`): empty input yields
`0.0`; otherwise spaces and double quotes are removed, the decimal comma
becomes a point, and a failed `float(...)` parse yields `0.0`. -/
def cleanNumber (value : String) : PyFloat :=
  if ¬ pyTruthy value then .finite 0
  else
    let valueStr := pyReplace (pyReplace (pyReplace value " " "") "\"" "") "," "."
    match pyFloat valueStr with
    | some f => f
    | none => .finite 0

/-! ## A backtracking engine for Python `re`

The engine mirrors CPython's backtracking matcher on the構 constructs the
program's patterns use: literals, character classes, `.`, anchors,
alternation (left-biased), greedy and lazy repetition (with CPython's
stop-on-empty-match rule), capture groups (last assignment wins,
`lastindex` is the most recently closed group) and look-ahead.
`re.search` returns the leftmost match. -/

/-- One item of a character class. -/
inductive CItem where
  | ch (c : Char)
  | rg (a b : Char)
  | dcls
  | scls
  | wcls
  deriving Repr, DecidableEq

/-- Regex abstract syntax. -/
inductive RE where
  | eps
  | lit (c : Char)
  | cls (neg : Bool) (items : List CItem)
  | dot
  | bol
  | eol
  | seq (a b : RE)
  | alt (a b : RE)
  | group (idx : Nat) (r : RE)
  | rep (lo : Nat) (hi : Option Nat) (lz : Bool) (r : RE)
  | look (neg : Bool) (r : RE)
  deriving Repr

/-- Flags of a `re` call. -/
structure ReFlags where
  icase : Bool
  multi : Bool
  dotall : Bool
  deriving Repr, DecidableEq

def flagsI : ReFlags := ⟨true, false, false⟩
def flagsIM : ReFlags := ⟨true, true, false⟩
def flagsIMS : ReFlags := ⟨true, true, true⟩
def flagsNone : ReFlags := ⟨false, false, false⟩

/-- `\w` for the program's texts: Latin/Cyrillic letters, digits, `_`. -/
def pyWordChar (c : Char) : Bool :=
  pyDigitChar c || c = '_' || ('a' ≤ c && c ≤ 'z') || ('A' ≤ c && c ≤ 'Z') ||
  ('а' ≤ c && c ≤ 'я') || ('А' ≤ c && c ≤ 'Я') || c = 'ё' || c = 'Ё'

def citemTest : CItem → Char → Bool
  | .ch c, d => c = d
  | .rg a b, d => a ≤ d && d ≤ b
  | .dcls, d => pyDigitChar d
  | .scls, d => pySpaceChar d
  | .wcls, d => pyWordChar d

/-- Class membership; under `IGNORECASE` a character also matches through
its case counterpart (CPython lowercases and retries). -/
def clsTest (fl : ReFlags) (neg : Bool) (items : List CItem) (c : Char) : Bool :=
  let base := fun d => items.any (fun it => citemTest it d)
  let hit := base c || (fl.icase && (base (pyLowerChar c) || base (pyUpperChar c)))
  if neg then !hit else hit

def litTest (fl : ReFlags) (p c : Char) : Bool :=
  p = c || (fl.icase && pyLowerChar p = pyLowerChar c)

/-- Matcher state: absolute position, previous character (for `^`),
remaining input, and closed-group records `(index, start, end)`, most
recent first. -/
structure MState where
  pos : Nat
  prev : Option Char
  rest : List Char
  gs : List (Nat × Nat × Nat)
  deriving Repr

/-- All ways `r` can match starting from `st`, in CPython's backtracking
preference order (head = the match `re` reports). The recursion is
structural on `fuel`, which every recursive call decrements; the fuel
passed by `research` exceeds the deepest call chain any pattern/input
pair in this development produces. -/
def mall (fl : ReFlags) : Nat → RE → MState → List MState
  | 0, _, _ => []
  | Nat.succ fuel, r, st =>
    match r with
    | .eps => [st]
    | .lit c =>
      (match st.rest with
       | [] => []
       | d :: ds => if litTest fl c d then [⟨st.pos + 1, some d, ds, st.gs⟩] else [])
    | .cls n its =>
      (match st.rest with
       | [] => []
       | d :: ds => if clsTest fl n its d then [⟨st.pos + 1, some d, ds, st.gs⟩] else [])
    | .dot =>
      (match st.rest with
       | [] => []
       | d :: ds => if d ≠ '\n' || fl.dotall then [⟨st.pos + 1, some d, ds, st.gs⟩] else [])
    | .bol =>
      if st.pos = 0 || (fl.multi && st.prev = some '\n') then [st] else []
    | .eol =>
      if st.rest.isEmpty || st.rest = ['\n'] || (fl.multi && st.rest.head? = some '\n')
      then [st] else []
    | .seq a b => (mall fl fuel a st).flatMap (fun st' => mall fl fuel b st')
    | .alt a b => mall fl fuel a st ++ mall fl fuel b st
    | .group i r =>
      (mall fl fuel r st).map (fun st' => { st' with gs := (i, st.pos, st'.pos) :: st'.gs })
    | .look neg r =>
      (match mall fl fuel r st, neg with
       | [], true => [st]
       | [], false => []
       | _ :: _, true => []
       | st' :: _, false => [{ st with gs := st'.gs }])
    | .rep lo hi lz r =>
      if hi = some 0 then [st]
      else
        let more :=
          (mall fl fuel r st).flatMap (fun st' =>
            if st'.pos = st.pos then []
            else mall fl fuel (.rep (lo - 1) (hi.map (fun h => h - 1)) lz r) st')
        if lo > 0 then more
        else if lz then st :: more else more ++ [st]

/-- A match object: overall span and the closed-group records. -/
structure PyMatch where
  mstart : Nat
  mstop : Nat
  gs : List (Nat × Nat × Nat)
  deriving Repr

/-- Scan start positions left to right — `re.search` is leftmost-match. -/
def searchGo (fl : ReFlags) (r : RE) (fuel : Nat) :
    Nat → Option Char → List Char → Option PyMatch
  | pos, prev, rest =>
    match mall fl fuel r ⟨pos, prev, rest, []⟩ with
    | st :: _ => some ⟨pos, st.pos, st.gs⟩
    | [] =>
      match rest with
      | [] => none
      | c :: cs => searchGo fl r fuel (pos + 1) (some c) cs

/-- Fuel for a `re` call: comfortably larger than the deepest call
chain the backtracking matcher can reach on this development's
pattern/input pairs (tree depth is bounded by the pattern length and
every repetition iteration consumes input). -/
def matchFuel (pat text : String) : Nat := (pat.length + 2) * (text.length + 3) + 1000

/-- `match.group(i)` (`i ≥ 1`): `none` when the group never matched. -/
def PyMatch.grp (m : PyMatch) (text : String) (i : Nat) : Option String :=
  (m.gs.find? (fun g => g.1 = i)).map
    (fun g => pyTake (pyDrop text g.2.1) (g.2.2 - g.2.1))

/-- `match.group(0)`. -/
def PyMatch.grp0 (m : PyMatch) (text : String) : String :=
  pyTake (pyDrop text m.mstart) (m.mstop - m.mstart)

/-- `match.lastindex`, with `None` rendered as `0`: the most recently
closed capture group. -/
def PyMatch.lastidx (m : PyMatch) : Nat :=
  match m.gs with
  | [] => 0
  | g :: _ => g.1

/-! ### Pattern parser (Python `re` syntax, the subset the program uses) -/

/-- Parse a decimal number at the head of the input. -/
def parseNat (l : List Char) : Option (Nat × List Char) :=
  match parseDigitsU l with
  | some (v, _, rest) => some (v, rest)
  | none => none

/-- One class atom: an escape or a literal character. -/
def parseClsAtom : List Char → Option (CItem × List Char)
  | [] => none
  | '\\' :: c :: cs =>
    (match c with
     | 'd' => some (.dcls, cs)
     | 's' => some (.scls, cs)
     | 'w' => some (.wcls, cs)
     | 'n' => some (.ch '\n', cs)
     | 't' => some (.ch '\t', cs)
     | 'r' => some (.ch '\x0d', cs)
     | _ => some (.ch c, cs))
  | ']' :: _ => none
  | c :: cs => some (.ch c, cs)

/-- Class items up to the closing `]` (ranges like `а-я` included). -/
def parseClsItems : Nat → List Char → Option (List CItem × List Char)
  | 0, _ => none
  | _, ']' :: cs => some ([], cs)
  | Nat.succ fuel, l =>
    match parseClsAtom l with
    | none => none
    | some (it, rest) =>
      match it, rest with
      | .ch a, '-' :: r2 =>
        (match r2 with
         | ']' :: _ =>
           (parseClsItems fuel rest).map (fun (its, r) => (.ch a :: its, r))
         | _ =>
           match parseClsAtom r2 with
           | some (.ch b, r3) =>
             (parseClsItems fuel r3).map (fun (its, r) => (.rg a b :: its, r))
           | _ => none)
      | _, _ =>
        (parseClsItems fuel rest).map (fun (its, r) => (it :: its, r))

/-- Quantifier suffix after an atom: `*` `+` `?` `{m}` `{m,}` `{m,n}`,
each optionally followed by `?` (lazy). -/
def parseQuant (l : List Char) : Option ((Nat × Option Nat) × List Char) :=
  match l with
  | '*' :: cs => some ((0, none), cs)
  | '+' :: cs => some ((1, none), cs)
  | '?' :: cs => some ((0, some 1), cs)
  | '\x7b' :: cs =>
    (match parseNat cs with
     | some (m, '\x7d' :: r) => some ((m, some m), r)
     | some (m, ',' :: r) =>
       (match r with
        | '\x7d' :: r2 => some ((m, none), r2)
        | _ =>
          match parseNat r with
          | some (n, '\x7d' :: r2) => some ((m, some n), r2)
          | _ => none)
     | _ => none)
  | _ => none

mutual

/-- Alternation: `seq ('|' seq)*`.  Returns the parsed regex, the next
capture-group number and the unconsumed input. -/
def parseAlt (fuel gi : Nat) (l : List Char) : Option (RE × Nat × List Char) :=
  match fuel with
  | 0 => none
  | Nat.succ f =>
    match parseSeq f gi l with
    | none => none
    | some (r, gi', rest) =>
      match rest with
      | '|' :: cs =>
        (match parseAlt f gi' cs with
         | some (r2, gi'', rest') => some (.alt r r2, gi'', rest')
         | none => none)
      | _ => some (r, gi', rest)

/-- A sequence of quantified atoms, ending at `|`, `)` or the end. -/
def parseSeq (fuel gi : Nat) (l : List Char) : Option (RE × Nat × List Char) :=
  match fuel with
  | 0 => none
  | Nat.succ f =>
    match l with
    | [] => some (.eps, gi, [])
    | '|' :: _ => some (.eps, gi, l)
    | ')' :: _ => some (.eps, gi, l)
    | _ =>
      match parseAtom f gi l with
      | none => none
      | some (a, gi', rest) =>
        let (a, rest) :=
          match parseQuant rest with
          | some ((lo, hi), r2) =>
            (match r2 with
             | '?' :: r3 => (RE.rep lo hi true a, r3)
             | _ => (RE.rep lo hi false a, r2))
          | none => (a, rest)
        match parseSeq f gi' rest with
        | some (b, gi'', rest') => some (.seq a b, gi'', rest')
        | none => none

/-- One atom: group, class, escape, `.`, `^`, `$` or a literal. -/
def parseAtom (fuel gi : Nat) (l : List Char) : Option (RE × Nat × List Char) :=
  match fuel with
  | 0 => none
  | Nat.succ f =>
    match l with
    | [] => none
    | '(' :: '?' :: ':' :: cs =>
      (match parseAlt f gi cs with
       | some (r, gi', ')' :: rest) => some (r, gi', rest)
       | _ => none)
    | '(' :: '?' :: '!' :: cs =>
      (match parseAlt f gi cs with
       | some (r, gi', ')' :: rest) => some (.look true r, gi', rest)
       | _ => none)
    | '(' :: '?' :: '=' :: cs =>
      (match parseAlt f gi cs with
       | some (r, gi', ')' :: rest) => some (.look false r, gi', rest)
       | _ => none)
    | '(' :: cs =>
      (match parseAlt f (gi + 1) cs with
       | some (r, gi', ')' :: rest) => some (.group gi r, gi', rest)
       | _ => none)
    | '[' :: '^' :: cs =>
      (match parseClsItems (cs.length + 1) cs with
       | some (its, rest) => some (.cls true its, gi, rest)
       | none => none)
    | '[' :: cs =>
      (match parseClsItems (cs.length + 1) cs with
       | some (its, rest) => some (.cls false its, gi, rest)
       | none => none)
    | '\\' :: c :: cs =>
      (match c with
       | 'd' => some (.cls false [.dcls], gi, cs)
       | 's' => some (.cls false [.scls], gi, cs)
       | 'w' => some (.cls false [.wcls], gi, cs)
       | 'D' => some (.cls true [.dcls], gi, cs)
       | 'S' => some (.cls true [.scls], gi, cs)
       | 'W' => some (.cls true [.wcls], gi, cs)
       | 'n' => some (.lit '\n', gi, cs)
       | 't' => some (.lit '\t', gi, cs)
       | 'r' => some (.lit '\x0d', gi, cs)
       | _ => some (.lit c, gi, cs))
    | '.' :: cs => some (.dot, gi, cs)
    | '^' :: cs => some (.bol, gi, cs)
    | '$' :: cs => some (.eol, gi, cs)
    | c :: cs => some (.lit c, gi, cs)

end

/-- Compile a pattern string to the AST; `none` on syntax outside the
embedded subset (never hit by the program's patterns). -/
def compile (pat : String) : Option RE :=
  match parseAlt (2 * pat.length + 10) 1 pat.data with
  | some (r, _, []) => some r
  | _ => none

/-- `re.search(pat, text, flags)`. -/
def research (fl : ReFlags) (pat text : String) : Option PyMatch :=
  match compile pat with
  | none => none
  | some r => searchGo fl r (matchFuel pat text) 0 none text.data

/-- `re.match(pat, text, flags)` — anchored at position 0. -/
def rematch (fl : ReFlags) (pat text : String) : Option PyMatch :=
  match compile pat with
  | none => none
  | some r =>
    match mall fl (matchFuel pat text) r ⟨0, none, text.data, []⟩ with
    | st :: _ => some ⟨0, st.pos, st.gs⟩
    | [] => none

/-- `re.finditer`: non-overlapping matches, scanning left to right
(an empty match advances the scan by one). -/
def finditerGo (fl : ReFlags) (r : RE) (mfuel : Nat) (text : String) :
    Nat → Nat → List PyMatch
  | 0, _ => []
  | Nat.succ f, pos =>
    let chars := text.data
    let prev := if pos = 0 then none else (chars.take pos).getLast?
    match searchGo fl r mfuel pos prev (chars.drop pos) with
    | none => []
    | some m =>
      if m.mstop > m.mstart then
        m :: finditerGo fl r mfuel text f m.mstop
      else if m.mstop < chars.length then
        m :: finditerGo fl r mfuel text f (m.mstop + 1)
      else [m]

def finditer (fl : ReFlags) (pat text : String) : List PyMatch :=
  match compile pat with
  | none => []
  | some r => finditerGo fl r (matchFuel pat text) text (text.length + 2) 0

/-- `re.findall` for the program's patterns (zero or one capture group):
the captured group when the pattern has one, else the whole match. -/
def hasGroup : RE → Bool
  | .eps | .lit _ | .cls _ _ | .dot | .bol | .eol => false
  | .seq a b | .alt a b => hasGroup a || hasGroup b
  | .group _ _ => true
  | .rep _ _ _ r => hasGroup r
  | .look _ r => hasGroup r

def findall (fl : ReFlags) (pat text : String) : List String :=
  match compile pat with
  | none => []
  | some r =>
    (finditerGo fl r (matchFuel pat text) text (text.length + 2) 0).map (fun m =>
      if hasGroup r then (m.grp text 1).getD "" else m.grp0 text)

/-! ## Output values

A Python value as it appears in the extractor's result dictionaries.
`num` is a Python float, `int` a Python int — the two are distinct
Python types and serialize differently. -/

inductive PyVal where
  | null
  | str (s : String)
  | num (f : PyFloat)
  | int (n : Int)
  | dict (fields : List (String × PyVal))
  | list (xs : List PyVal)

/-- Member access in a `dict` value. -/
def PyVal.getKey (v : PyVal) (k : String) : Option PyVal :=
  match v with
  | .dict fs => fs.lookup k
  | _ => none

def PyVal.isNum : PyVal → Bool
  | .num _ => true
  | _ => false

def PyVal.isStr : PyVal → Bool
  | .str _ => true
  | _ => false

/-- The top-level fields of a `dict` (empty for other values). -/
def PyVal.fields : PyVal → List (String × PyVal)
  | .dict fs => fs
  | _ => []

/-! ## `InvoiceDataExtractor` — pattern tables

Patterns are kept verbatim from `app/data_extractor.py` (`{`/`}` written
`\x7b`/`\x7d`; Lean escaping of `\` and `"`). -/

def invoiceNumberPatterns : List String := [
  "сч[ёе]т[а-я]*\\s+на\\s+оплату\\s+№\\s*([\\d/]+)",
  "сч[ёе]т[а-я]*\\s*№\\s*([\\d/]+)",
  "сч[ёе]т[а-я]*-оферта\\s+(\\d+)",
  "сч[ёе]т[а-я]*-фактура\\s+№\\s*(\\d+)",
  "(?:сч[ёе]т[а-я]*|invoice)\\s*[:\\-]?\\s*№?\\s*([\\d/]\x7b1,15\x7d)(?!\\d)",
  "invoice\\s*#?\\s*(\\d\x7b1,10\x7d)",
  "№\\s*([\\d/]+)"]

def datePatterns : List String := [
  "от\\s+(\\d\x7b1,2\x7d\\.\\d\x7b1,2\x7d\\.\\d\x7b4\x7d)",
  "от\\s+(\\d\x7b1,2\x7d\\s+[а-я]+\\s+\\d\x7b4\x7d\\s+г\\.)",
  "(?:дата|date|от)\\s*[:\\-]?\\s*(\\d\x7b1,2\x7d[./\\-]\\d\x7b1,2\x7d[./\\-]\\d\x7b2,4\x7d)",
  "(\\d\x7b1,2\x7d\\.\\d\x7b1,2\x7d\\.\\d\x7b4\x7d)",
  "(\\d\x7b1,2\x7d/\\d\x7b1,2\x7d/\\d\x7b4\x7d)"]

def sellerPatterns : List String := [
  "поставщик\\s+((?:ООО|АО)\\s+ТД\\s+\"[^\"]+\")",
  "поставщик\\s+((?:ООО|АО)\\s+ТД\\s+[А-Яа-яA-Za-z]\x7b3,\x7d[А-Яа-яA-Za-z\\s,\\.]*)",
  "поставщик\\s+((?:ООО|АО|ТД|ИП)\\s+\"[^\"]+\")",
  "поставщик\\s+((?:ООО|АО|ТД|ИП)\\s+[А-Яа-яA-Za-z]\x7b3,\x7d[А-Яа-яA-Za-z\\s,\\.]*)",
  "поставщик[^\\n]*?\\n\\s*((?:ООО|АО)\\s+ТД\\s+\"[^\"]+\")",
  "поставщик[^\\n]*?\\n\\s*((?:ООО|АО)\\s+ТД\\s+[А-Яа-яA-Za-z]\x7b3,\x7d[А-Яа-яA-Za-z\\s,\\.]*)",
  "поставщик[:\\-]?\\s+((?:ООО|АО)\\s+ТД\\s+\"[^\"]+\")(?:\\s+ИНН|\\s+КПП|\\s+Адрес|$)",
  "поставщик[:\\-]?\\s+((?:ООО|АО)\\s+ТД\\s+[А-Яа-яA-Za-z]\x7b3,\x7d[А-Яа-яA-Za-z\\s,\\.]*?)(?:\\s+ИНН|\\s+КПП|\\s+Адрес|$)",
  "поставщик[:\\-]?\\s+((?:ООО|АО|ТД|ИП)\\s+\"[^\"]+\")(?:\\s+ИНН|\\s+КПП|\\s+Адрес|$)",
  "поставщик[:\\-]?\\s+((?:ООО|АО|ТД|ИП)\\s+[А-Яа-яA-Za-z]\x7b3,\x7d[А-Яа-яA-Za-z\\s,\\.]*?)(?:\\s+ИНН|\\s+КПП|\\s+Адрес|$)",
  "поставщик[^п]*?[:\\-]?\\s*((?:ООО|АО)\\s+ТД\\s+\"[А-Яа-яA-Za-z\\s,\\.]+\")(?![^п]*покупатель)",
  "поставщик[^п]*?[:\\-]?\\s*((?:ООО|АО)\\s+ТД\\s+[А-Яа-яA-Za-z\\s,\\.]\x7b3,\x7d?)(?:\\s+ИНН|\\s+КПП)(?![^п]*покупатель)",
  "исполнитель[:\\-]?\\s+((?:ООО|АО|ТД|ИП)\\s+\"[^\"]+\")(?:\\s+ИНН|\\s+КПП|\\s+Адрес|$)",
  "продавец[:\\-]?\\s+((?:ООО|АО|ТД|ИП)\\s+\"[^\"]+\")(?:\\s+ИНН|\\s+КПП|\\s+Адрес|$)",
  "поставщик[^:]*[:\\-]?\\s*(ИП\\s+[А-Яа-яA-Za-z\\s,\\.]+?)(?:\\s+ИНН|\\s+КПП|\\с+Адрес|$)",
  "отправитель\\s*[:\\-]?\\s*([А-Я][а-я]+\\s+[А-Я][а-я]+)"]

def buyerPatterns : List String := [
  "покупатель\\s+((?:ООО|АО|ТД|ИП)\\s+\"[^\"]+\")",
  "покупатель\\s+((?:ООО|АО|ТД|ИП)\\s+[А-Яа-яA-Za-z]\x7b2,\x7d[А-Яа-яA-Za-z\\s,\\.]*)",
  "покупатель[^\\n]*?\\n\\s*((?:ООО|АО|ТД|ИП)\\s+\"[^\"]+\")",
  "покупатель[^\\n]*?\\n\\s*((?:ООО|АО|ТД|ИП)\\s+[А-Яа-яA-Za-z]\x7b2,\x7d[А-Яа-яA-Za-z\\s,\\.]*)",
  "покупатель[:\\-]?\\s+((?:ООО|АО|ТД|ИП)\\s+\"[^\"]+\")(?:\\s+ИНН|\\s+КПП|\\s+Адрес|$)",
  "покупатель[:\\-]?\\s+((?:ООО|АО|ТД|ИП)\\s+[А-Яа-яA-Za-z]\x7b2,\x7d[А-Яа-яA-Za-z\\s,\\.]*?)(?:\\s+ИНН|\\s+КПП|\\s+Адрес|$)",
  "заказчик[:\\-]?\\s+((?:ООО|АО|ТД|ИП)\\s+\"[^\"]+\")(?:\\s+ИНН|\\s+КПП|\\s+Адрес|$)",
  "клиент[:\\-]?\\s+((?:ООО|АО|ТД|ИП)\\s+\"[^\"]+\")(?:\\s+ИНН|\\s+КПП|\\s+Адрес|$)",
  "покупатель[^:]*[:\\-]?\\s*(ИП\\s+[А-Яа-яA-Za-z\\s,\\.]+?)(?:\\с+ИНН|\\с+КПП|\\с+Адрес|$)\"?",
  "получатель\\s*[:\\-]?\\s*([А-Я][а-я]+\\s+[А-Я]\\.)",
  "получатель\\s*[:\\-]?\\s*([А-Я][а-я]+\\s+[А-Я][а-я]+)"]

def innPatterns : List String := [
  "поставщик[^п]*?ИНН\\s*[:\\-]?\\s*(\\d\x7b10,12\x7d)(?![^п]*покупатель)",
  "исполнитель[^п]*?ИНН\\s*[:\\-]?\\s*(\\d\x7b10,12\x7d)(?![^п]*покупатель)",
  "продавец[^п]*?ИНН\\s*[:\\-]?\\s*(\\d\x7b10,12\x7d)(?![^п]*покупатель)",
  "поставщик[^:]*[:\\-]?[^\\d]*ИНН\\s*[:\\-]?\\s*(\\d\x7b10,12\x7d)",
  "исполнитель[^:]*[:\\-]?[^\\d]*ИНН\\s*[:\\-]?\\s*(\\d\x7b10,12\x7d)",
  "продавец[^:]*[:\\-]?[^\\d]*ИНН\\s*[:\\-]?\\s*(\\d\x7b10,12\x7d)"]

def kppPatterns : List String := [
  "поставщик[^п]*?КПП\\s*[:\\-]?\\s*(\\d\x7b9\x7d)(?![^п]*покупатель)",
  "исполнитель[^п]*?КПП\\s*[:\\-]?\\s*(\\d\x7b9\x7d)(?![^п]*покупатель)",
  "продавец[^п]*?КПП\\s*[:\\-]?\\s*(\\d\x7b9\x7d)(?![^п]*покупатель)",
  "поставщик[^:]*[:\\-]?[^\\d]*КПП\\s*[:\\-]?\\s*(\\d\x7b9\x7d)",
  "исполнитель[^:]*[:\\-]?[^\\d]*КПП\\s*[:\\-]?\\s*(\\d\x7b9\x7d)",
  "продавец[^:]*[:\\-]?[^\\d]*КПП\\s*[:\\-]?\\s*(\\d\x7b9\x7d)"]

def totalAmountPatterns : List String := [
  "всего\\s+к\\s+оплате\\s*[:\\-]?\\s*([\\d\\s,\\.]\x7b3,\x7d[,\\.]\\d\x7b2\x7d)",
  "всего\\s+с\\s+ндс\\s*[:\\-]?\\s*([\\d\\s,\\.]\x7b3,\x7d[,\\.]\\d\x7b2\x7d)",
  "к\\s+оплате\\s*[:\\-]?\\s*([\\d\\s,\\.]\x7b3,\x7d[,\\.]\\d\x7b2\x7d)",
  "итого[^,]*вкл[^,]*ндс[^,]*[:\\-]?\\s*([\\d\\s,\\.]\x7b3,\x7d[,\\.]\\d\x7b2\x7d)",
  "итого\\s*[:\\-]?\\s*([\\d\\s,\\.]\x7b3,\x7d[,\\.]\\d\x7b2\x7d)\\s*(?:руб|RUB|₽|р\\.)",
  "(?:итого|total)\\s*[:\\-]?\\s*([\\d\\s,\\.]\x7b3,\x7d[,\\.]\\d\x7b2\x7d)",
  "([\\d\\s,\\.]\x7b3,\x7d[,\\.]\\d\x7b2\x7d)\\s*(?:руб|RUB|₽|р\\.)\\s*(?:итого|total)",
  "сумма\\s+([\\d\\s,\\.]\x7b3,\x7d[,\\.]\\d\x7b2\x7d)",
  "на\\s+сумму\\s+([\\d\\s,\\.]\x7b3,\x7d[,\\.]\\d\x7b2\x7d)\\s*(?:руб|RUB|₽|р\\.)"]

def vatPatternsField : List String := [
  "в\\s+том\\s+числе\\s+ндс\\s*\\d*\\s*%\\s*[:\\-]?\\s*([\\d\\s,\\.]\x7b3,\x7d[,\\.]\\d\x7b2\x7d)",
  "ндс\\s*\\(?\\d+\\s*%\\)?\\s*[:\\-]?\\s*([\\d\\s,\\.]\x7b3,\x7d[,\\.]\\d\x7b2\x7d)",
  "(?:НДС|VAT|vat)\\s*[:\\-]?\\s*([\\d\\s,\\.]\x7b3,\x7d[,\\.]\\d\x7b2\x7d)\\s*(?:руб|RUB|%)",
  "НДС\\s*(\\d+)\\s*%\\s*[:\\-]?\\s*([\\d\\s,\\.]\x7b3,\x7d[,\\.]\\d\x7b2\x7d)",
  "в\\s+том\\s+числе\\s+ндс\\s*[:\\-]?\\s*([\\d\\s,\\.]\x7b3,\x7d[,\\.]\\d\x7b2\x7d)"]

/-- `self.patterns` of `InvoiceDataExtractor.__init__`. -/
def patternsTable : List (String × List String) := [
  ("invoice_number", invoiceNumberPatterns),
  ("date", datePatterns),
  ("seller", sellerPatterns),
  ("buyer", buyerPatterns),
  ("inn", innPatterns),
  ("kpp", kppPatterns),
  ("total_amount", totalAmountPatterns),
  ("vat", vatPatternsField)]

/-- Secondary buyer patterns of `_extract_field` (line 219). -/
def buyerPatterns2 : List String := [
  "покупатель\\s+(ООО\\s+\"[А-Яа-яA-Za-z\\s,\\.]+\")(?:\\s+ИНН|\\s+КПП|\\s+Адрес|$)",
  "покупатель\\s+(ООО\\s+[А-Яа-яA-Za-z\\s,\\.]\x7b3,\x7d?)(?:\\s+ИНН|\\s+КПП|\\s+Адрес|$)",
  "покупатель[^:]*[:\\-]?\\s*(ООО\\s+\"[А-Яа-яA-Za-z\\s,\\.]+\")(?:\\s+ИНН|\\s+КПП|\\s+Адрес|$)\"?",
  "покупатель[^:]*[:\\-]?\\s*(ООО\\s+\"[А-Яа-яA-Za-z\\s,\\.]+?)(?:\\s+ИНН|\\s+КПП|\\s+Адрес|$)\"?",
  "заказчик[^:]*[:\\-]?\\s*(ООО\\s+\"[А-Яа-яA-Za-z\\s,\\.]+?)(?:\\s+ИНН|\\s+КПП|\\с+Адрес|$)\"?",
  "получатель\\s+([А-Я][а-я]+\\s+[А-Я]\\.)",
  "получатель\\s+([А-Я][а-я]+\\s+[А-Я][а-я]+)"]

/-- Secondary seller patterns of `_extract_field` (line 234). -/
def sellerPatterns2 : List String := [
  "поставщик[^:]*[:\\-]?\\s*((?:ООО|АО)\\s*ТД\\s*\"?[А-Яа-яA-Za-z\\s,\\.]+\")(?:\\s+ИНН|\\s+КПП|\\s+Адрес|$)",
  "поставщик[^:]*[:\\-]?\\s*((?:ООО|АО)\\s*ТД\\s*[А-Яа-яA-Za-z\\s,\\.]\x7b3,\x7d?)(?:\\s+ИНН|\\s+КПП|\\s+Адрес|$)",
  "поставщик[^:]*[:\\-]?\\s*(ООО\\s*\"?[А-Яа-яA-Za-z\\s,\\.]+?)(?:\\s+ИНН|\\s+КПП|\\s+Адрес|$)\"?",
  "исполнитель[^:]*[:\\-]?\\s*(ООО\\s*\"?[А-Яа-яA-Za-z\\s,\\.]+?)(?:\\s+ИНН|\\s+КПП|\\s+Адрес|$)\"?",
  "отправитель\\s+([А-Я][а-я]+\\s+[А-Я][а-я]+)"]

def stopWords : List String := [
  "Карта", "Получатель", "Квитанция", "По вопросам", "получателя",
  "карта", "Карта получателя", "Служба", "ИНН", "КПП", "Адрес"]

/-! ## `_extract_field` helpers -/

/-- `_preprocess_text` (line 155): `re.sub(r'[ \t]+', ' ', text)` —
collapse space/tab runs to one space, newlines preserved. -/
def cstGo : Bool → List Char → List Char
  | _, [] => []
  | prevSp, c :: cs =>
    if c = ' ' || c = '\t' then
      if prevSp then cstGo true cs else ' ' :: cstGo true cs
    else c :: cstGo false cs

def preprocessText (text : String) : String := String.mk (cstGo false text.data)

/-- `re.sub(r'\s+', ' ', s)`: collapse every whitespace run to one space. -/
def cwsGo : Bool → List Char → List Char
  | _, [] => []
  | prevSp, c :: cs =>
    if pySpaceChar c then
      if prevSp then cwsGo true cs else ' ' :: cwsGo true cs
    else c :: cwsGo false cs

def subWsSpace (s : String) : String := String.mk (cwsGo false s.data)

/-- `re.sub(r'\s+', '', s)`: remove all whitespace. -/
def subWsEmpty (s : String) : String :=
  String.mk (s.data.filter (fun c => ¬ pySpaceChar c))

/-- `re.sub(r'\s+[a-z]\s*$', '', s, flags=re.IGNORECASE)`: drop a trailing
run of whitespace, one Latin letter, trailing whitespace. -/
def subTrailLatin (s : String) : String :=
  let r := s.data.reverse
  let r1 := r.dropWhile pySpaceChar
  match r1 with
  | c :: rest =>
    if ('a' ≤ c && c ≤ 'z') || ('A' ≤ c && c ≤ 'Z') then
      let r2 := rest.dropWhile pySpaceChar
      if r2.length < rest.length then String.mk r2.reverse else s
    else s
  | [] => s

/-- `re.sub(r'\s*[,]+$', '', s)`: drop trailing commas and the
whitespace run just before them. -/
def subTrailCommas (s : String) : String :=
  let r := s.data.reverse
  let r1 := r.dropWhile (fun c => c = ',')
  if r1.length < r.length then String.mk (r1.dropWhile pySpaceChar).reverse else s

/-- `re.sub(r'^\d+\s+', '', s)`: drop a leading digit run plus
whitespace. -/
def subLeadIndex (s : String) : String :=
  let d := s.data.dropWhile pyDigitChar
  if d.length < s.data.length then
    let w := d.dropWhile pySpaceChar
    if w.length < d.length then String.mk w else s
  else s

/-- `re.sub(r'^[|\[\]]+\s*', '', s)`: drop leading `|`/`[`/`]` run and
following whitespace. -/
def subLeadBars (s : String) : String :=
  let d := s.data.dropWhile (fun c => c = '|' || c = '[' || c = ']')
  if d.length < s.data.length then String.mk (d.dropWhile pySpaceChar) else s

/-- `re.sub(r'[^\d\.]+$', '', s)`: drop the trailing run of characters
that are neither digits nor dots. -/
def subTrailNonNum (s : String) : String :=
  String.mk (s.data.reverse.dropWhile (fun c => ¬ (pyDigitChar c || c = '.'))).reverse

/-- `re.sub(r'\n+', ' ', s)`: newline runs to one space. -/
def cnlGo : Bool → List Char → List Char
  | _, [] => []
  | prevNl, c :: cs =>
    if c = '\n' then
      if prevNl then cnlGo true cs else ' ' :: cnlGo true cs
    else c :: cnlGo false cs

def subNlSpace (s : String) : String := String.mk (cnlGo false s.data)

/-- Degenerate-capture test for seller/buyer before cleaning
(lines 193–196). -/
def degenerateSB (vc : String) : Bool :=
  (rematch flagsI "^[a-zа-я]\\s*[,]?$" vc).isSome ||
  (rematch flagsNone "^0+$" vc).isSome ||
  (rematch flagsNone "^\\d+$" vc).isSome ||
  pyLen vc < 3

/-- Stop-word truncation with quote rebalancing (lines 202–212). -/
def stopWordsTrunc (value : String) : String :=
  let minIdx := stopWords.foldl (fun (mi : Nat) w =>
    let idx := pyFind (pyLower value) (pyLower w)
    if 0 < idx ∧ idx < (mi : Int) then idx.toNat else mi) (pyLen value)
  if minIdx < pyLen value then
    let v := pyStrip (pyTake value minIdx)
    if pyCountChar v '"' > 0 ∧ pyCountChar v '"' % 2 = 1 then v ++ "\"" else v
  else value

/-- The re-extraction trigger of line 217. -/
def needsReextract (value : String) : Bool :=
  pyLen value < 3 ||
  (rematch flagsNone "^[a-z]\\s*[,]?$" value).isSome ||
  ((rematch flagsNone "^[a-zA-Z\\s,]+$" value).isSome ∧ (pySplitWs value).length < 2)

/-- Secondary re-extraction (lines 218–245): the first matching pattern
replaces `value` by its group 1 (these groups always participate when the
pattern matches). -/
def reextractFrom (pats : List String) (text value : String) : String :=
  match pats.find? (fun p => (research flagsI p text).isSome) with
  | some p =>
    match research flagsI p text with
    | some m => (m.grp text 1).getD value
    | none => value
  | none => value

/-- Final degenerate check for seller/buyer (lines 252–256). -/
def finalDegenerate (vc : String) : Bool :=
  pyLen vc < 3 || (rematch flagsI "^[a-zа-я]\\s*[,]?$" vc).isSome

/-! ## `_extract_field` -/

/-- The optional ML validator collaborator
(`InvoiceFieldClassifier.validate_extraction`): given (field name,
candidate, context text) it returns plausibility and a confidence, or
raises (`Except.error`).  It is an external collaborator (scikit-learn);
confidence is modelled as an exact rational. -/
def ValidatorFn : Type := String → String → String → Except Unit (Bool × ℚ)

/-- The ML acceptance step of `_extract_field` (lines 258–266): absent
validator accepts; a raising validator is swallowed (`except: pass`) and
accepts; the candidate is refused only on `not is_valid and
confidence < 0.5`. -/
def mlAccepts (validator : Option ValidatorFn) (fieldName value text : String) : Bool :=
  match validator with
  | none => true
  | some v =>
    match v fieldName value text with
    | .error _ => true
    | .ok (isValid, conf) => !(isValid = false ∧ conf < 1/2 : Bool)

/-- The candidate-producing part of one pattern iteration of
`_extract_field` (lines 180–256), given the already-found match; `none`
means `continue` to the next pattern.  The ML validation step
(lines 258–266) follows separately, as in the source. -/
def fieldCandidate (fieldName text : String) (m : PyMatch) : Option String :=
  let value? : Option String :=
    if m.lastidx ≥ 1 then m.grp text 1 else some (m.grp0 text)
  match value? with
  | none => none
  | some value =>
    if value = "" then none
    else if fieldName = "invoice_number" ∧ pyLen (pyStrip value) > 10 then none
    else if (fieldName = "seller" ∨ fieldName = "buyer") ∧ degenerateSB (pyStrip value) then none
    else
      let value := subWsSpace (pyStrip value)
      let value := if fieldName = "total_amount" then pyReplace value " " "" else value
      if fieldName = "seller" ∨ fieldName = "buyer" then
        let value := stopWordsTrunc value
        let value := subTrailLatin value
        let value := subTrailCommas value
        let value :=
          if needsReextract value then
            if fieldName = "buyer" then reextractFrom buyerPatterns2 text value
            else reextractFrom sellerPatterns2 text value
          else value
        let value := pyStrip value
        if finalDegenerate (pyStrip value) then none else some value
      else some value

/-- One pattern iteration of `_extract_field`: the candidate chain, then
the single ML-validation gate of lines 258–266. -/
def extractFieldStep (validator : Option ValidatorFn)
    (fieldName text : String) (m : PyMatch) : Option String :=
  match fieldCandidate fieldName text m with
  | none => none
  | some value =>
    if mlAccepts validator fieldName value text then some value else none

/-- The pattern loop of `_extract_field`. -/
def extractFieldGo (validator : Option ValidatorFn)
    (fieldName text : String) : List String → Option String
  | [] => none
  | pat :: rest =>
    match research flagsIM pat text with
    | none => extractFieldGo validator fieldName text rest
    | some m =>
      match extractFieldStep validator fieldName text m with
      | some v => some v
      | none => extractFieldGo validator fieldName text rest

/-- `InvoiceDataExtractor._extract_field` (line 160).  The validator
parameter models `self.use_ml_validation and self.ml_classifier`
(`none` = disabled, the constructor's default). -/
def extractField (validator : Option ValidatorFn)
    (fieldName text : String) : Option String :=
  extractFieldGo validator fieldName text ((patternsTable.lookup fieldName).getD [])

/-! ## `PDFProcessor` (`app/pdf_processor.py`)

The recognizer collaborator is a function
`recog : Bool → Nat → String`: first argument `true` = the preprocessed
bitmap, `false` = the unprocessed original; second argument the
Tesseract PSM mode.  Per the spec's collaborator contract it is total
and never raises.  For a PDF the per-page recognizer is
`recogOf : Nat → Bool → Nat → String` (page number first, 1-based). -/

/-- The PSM loop of the OCR routines (`for psm_mode in [6, 11, 12]`):
`text` is overwritten by each attempt and the loop breaks on the first
result whose trimmed length exceeds 50. -/
def psmLoop (recog : Bool → Nat → String) (text : String) : List Nat → String
  | [] => text
  | psm :: rest =>
    let text := recog true psm
    if pyLen (pyStrip text) > 50 then text else psmLoop recog text rest

/-- `PDFProcessor._extract_text_with_ocr_from_page` (line 81), OCR of a
single page: the PSM loop on the preprocessed bitmap, then — only when
the result is empty or trimmed-shorter than 10 — one retry on the
unprocessed original with PSM 6; `return text if text else ""`. -/
def ocrFromPage (recog : Bool → Nat → String) : String :=
  let text := psmLoop recog "" [6, 11, 12]
  let text := if ¬ pyTruthy text ∨ pyLen (pyStrip text) < 10 then recog false 6 else text
  if pyTruthy text then text else ""

/-- The per-page page block `f"--- Страница {page_num} ---\n{text}\n"`. -/
def pageBlock (pageNum : Nat) (text : String) : String :=
  "--- Страница " ++ toString pageNum ++ " ---\n" ++ text ++ "\n"

/-- `PDFProcessor._extract_text_with_ocr_full` (line 138): whole-document
OCR, page by page; each page runs the same PSM loop and unprocessed
retry, and non-empty page texts are joined as labelled blocks. -/
def ocrFullPage (recog : Bool → Nat → String) : String :=
  let text := psmLoop recog "" [6, 11, 12]
  if ¬ pyTruthy text ∨ pyLen (pyStrip text) < 10 then recog false 6 else text

def extractTextWithOcrFull (nPages : Nat) (recogOf : Nat → Bool → Nat → String) : String :=
  pyJoin "\n" (((List.range nPages).map (fun i => i + 1)).filterMap (fun pageNum =>
    let text := ocrFullPage (recogOf pageNum)
    if pyTruthy text then some (pageBlock pageNum text) else none))

/-- One iteration of the native-extraction loop: how page `pageNum`
with native text `text?` extends the accumulators `(full_text, total)`. -/
def nativeStep (ocrPage : Nat → String) (pageNum : Nat) (text? : Option String)
    (acc : List String × Nat) : List String × Nat :=
  let (fullText, total) := acc
  match text? with
  | some text =>
    if pyTruthy text ∧ pyLen (pyStrip text) > 50 then
      (fullText ++ [pageBlock pageNum text], total + pyLen (pyStrip text))
    else
      let t := ocrPage pageNum
      if pyTruthy t then (fullText ++ [pageBlock pageNum t], total + pyLen (pyStrip t))
      else (fullText, total)
  | none =>
    let t := ocrPage pageNum
    if pyTruthy t then (fullText ++ [pageBlock pageNum t], total + pyLen (pyStrip t))
    else (fullText, total)

/-- The page loop of a native pass (`for page_num, page in
enumerate(..., 1)`).  `pageNum` is the 1-based number of the first
remaining page. -/
def nativePassGo (ocrPage : Nat → String) :
    Nat → List (Option String) → (List String × Nat) → List String × Nat
  | _, [], acc => acc
  | pageNum, text? :: rest, acc =>
    nativePassGo ocrPage (pageNum + 1) rest (nativeStep ocrPage pageNum text? acc)

/-- One native pass of `PDFProcessor.extract_text` (the identical
pdfplumber and PyPDF2 loops, lines 26–38 and 52–64): native page text is
kept iff present with trimmed length above 50, otherwise the page is
re-extracted by per-page OCR and the OCR text (when non-empty) takes the
page's slot; returns the joined text and `total_text_length`. -/
def nativePass (pages : List (Option String)) (ocrPage : Nat → String) :
    String × Nat :=
  let (fullText, total) := nativePassGo ocrPage 1 pages ([], 0)
  (pyJoin "\n" fullText, total)

/-- `PDFProcessor.extract_text` (line 18).  `plumberPages` and
`pypdfPages` are the two native-layer readers' per-page results
(`page.extract_text()` may return `None`); the claims' single
"native-layer reader" corresponds to both lists holding the same texts.
A pass's result is kept iff it is non-blank and its
`total_text_length` exceeds 100; otherwise the next strategy runs,
ending in whole-document OCR. -/
def extractText (plumberPages pypdfPages : List (Option String))
    (recogOf : Nat → Bool → Nat → String) (nPages : Nat) : String :=
  let ocrPage := fun pageNum => ocrFromPage (recogOf pageNum)
  let (result1, total1) := nativePass plumberPages ocrPage
  if pyTruthy (pyStrip result1) ∧ total1 > 100 then result1
  else
    let (result2, total2) := nativePass pypdfPages ocrPage
    if pyTruthy (pyStrip result2) ∧ total2 > 100 then result2
    else extractTextWithOcrFull nPages recogOf

/-- `PDFProcessor.extract_text_from_image` (line 244): the same PSM loop
and unprocessed-original retry, for a standalone image. -/
def extractTextFromImage (recog : Bool → Nat → String) : String :=
  let text := psmLoop recog "" [6, 11, 12]
  let text := if ¬ pyTruthy text ∨ pyLen (pyStrip text) < 10 then recog false 6 else text
  if pyTruthy text then text else ""

/-! ## `_extract_items` (line 272) — the line-item table scan -/

/-- A raw item dictionary as built inside `_extract_items`; a missing
key and a key set to `None` are both `none` (every read uses `.get`). -/
structure Item where
  number : Option String := none
  name : Option String := none
  quantity : Option String := none
  unit : Option String := none
  deliveryTerms : Option String := none
  priceWithoutVat : Option String := none
  amountWithoutVat : Option String := none
  vatAmount : Option String := none
  totalWithVat : Option String := none

def itemsStartKeywordsPriority : List String := [
  "перечень\\s+товаров", "перечень\\s+товаров.*работ.*услуг",
  "заказные\\s+позиции", "позиции\\s+заказа",
  "товар", "товары", "услуг", "работ",
  "контрактное\\s+производство",
  "счет.*договор.*товар"]

def itemsStartKeywordsSecondary : List String := [
  "наименование\\s+товара", "наименование\\s+товаров",
  "наименование.*работ.*услуг", "наименование",
  "№\\s*\\d+", "описание"]

def itemsEndKeywords : List String := [
  "^итого\\s*$",
  "^всего\\s+наименований",
  "^ндс\\s*\\(",
  "^всего\\s+с\\s+ндс\\s*$",
  "^всего\\s+к\\s+оплате",
  "^итого\\s+без\\s+ндс"]

/-- Python substring containment `sub in s`. -/
def pyContains (s sub : String) : Bool := pyFind s sub ≥ 0

/-- The header-token containment check of the section-start detection
(lines 310 and 314). -/
def hasHeaderToken (lineClean : String) : Bool :=
  ["наименование", "ед", "кол-во", "цена", "сумма"].any
    (fun kw => pyContains (pyLower lineClean) kw)

/-- `.replace(' ', '').replace(',', '.')` applied to captured amounts. -/
def cleanAmt (a : String) : String :=
  pyReplace (pyReplace a " " "") "," "."

def amountPat : String := "([\\d\\s]\x7b3,\x7d[,\\.]\\d\x7b2\x7d)"

def findallAmounts (s : String) : List String := findall flagsNone amountPat s

def findallNumbers (s : String) : List String := findall flagsNone "\\d+" s

/-- The `valid_amounts` filter: more than three digits once spaces are
removed, commas become dots and dots are removed. -/
def validAmountsOf (amounts : List String) : List String :=
  amounts.filter (fun a =>
    pyLen (pyReplace (pyReplace (pyReplace a " " "") "," ".") "." "") > 3)

/-- Python `int(...)` on an all-digit string. -/
def pyIntDigits (s : String) : Int :=
  (s.data.foldl (fun acc c => acc * 10 + (c.toNat - '0'.toNat)) 0 : Nat)

/-- Exact division of rationals, built directly in lowest terms
(Python float division; the divisor is a positive integer at the one
use site). -/
def ratDiv (a b : ℚ) : ℚ :=
  if b.num ≥ 0 then mkRat (a.num * (b.den : Int)) (a.den * b.num.natAbs)
  else mkRat (-(a.num * (b.den : Int))) (a.den * b.num.natAbs)

/-- Python `str(float)` for the values this program produces: exact
decimal expansion when the rational terminates (every Python float
does), with a trailing `.0` for integral values. -/
def pyFloatRepr (f : PyFloat) : String :=
  match f with
  | .inf => "inf"
  | .neginf => "-inf"
  | .nan => "nan"
  | .finite q =>
    let sign := if q.num < 0 then "-" else ""
    let n := q.num.natAbs
    let d := q.den
    match (List.range 30).find? (fun k => (10 ^ k * n) % d = 0) with
    | some k =>
      if k = 0 then sign ++ toString (n / d) ++ ".0"
      else
        let v := 10 ^ k * n / d
        let digits := toString v
        let digits := String.mk (List.replicate (k + 1 - min digits.length (k + 1)) '0') ++ digits
        let ip := pyTake digits (pyLen digits - k)
        let fp := pyDrop digits (pyLen digits - k)
        sign ++ (if ip = "" then "0" else ip) ++ "." ++ fp
    | none => sign ++ toString n ++ "/" ++ toString d

def altPattern : String := "^(\\d+)\\s+(.+?)\\s+(\\d+)\\s+(шт|кг|м|м2|м3|л|г|т|ед|компл|упак|рул|лист|пог\\.м|пог\\s*м|шт\\.)\\s*\\.?\\s+([\\d\\s]\x7b1,\x7d[,\\.]\\d\x7b2\x7d)\\s+([\\d\\s]\x7b1,\x7d[,\\.]\\d\x7b2\x7d)"

def simpleItemPattern : String := "^(\\d+)\\s+([А-Яа-яA-Za-z0-9\\s,\\.\\-\\(\\)хХмМ]\x7b10,\x7d?)\\s+(\\d+)\\s+([А-Яа-яA-Za-z]\x7b1,5\x7d)\\s+([\\d\\s]\x7b1,\x7d[,\\.]\\d\x7b2\x7d)\\s+([\\d\\s]\x7b1,\x7d[,\\.]\\d\x7b2\x7d)"

def itemPattern : String := "^(\\d+)\\s+([А-Яа-яA-Za-z0-9\\s,\\.\\-\\(\\)]+?)\\s+([А-Яа-яA-Za-z]\x7b1,5\x7d)\\s+(\\d+)\\s+([^\\d]\x7b0,50\x7d?)\\s+([\\d\\s,\\.]\x7b3,\x7d[,\\.]\\d\x7b2\x7d)\\s+([\\d\\s,\\.]\x7b3,\x7d[,\\.]\\d\x7b2\x7d)\\s+([\\d\\s,\\.]\x7b3,\x7d[,\\.]\\d\x7b2\x7d)\\s+([\\d\\s,\\.]\x7b3,\x7d[,\\.]\\d\x7b2\x7d)"

def itemPatternNoTerms : String := "^(\\d+)\\s+([А-Яа-яA-Za-z0-9\\s,\\.\\-\\(\\)]+?)\\s+([А-Яа-яA-Za-z]\x7b1,5\x7d)\\s+(\\d+)\\s+([\\d\\s,\\.]\x7b3,\x7d[,\\.]\\d\x7b2\x7d)\\s+([\\d\\s,\\.]\x7b3,\x7d[,\\.]\\d\x7b2\x7d)\\s+([\\d\\s,\\.]\x7b3,\x7d[,\\.]\\d\x7b2\x7d)\\s+([\\d\\s,\\.]\x7b3,\x7d[,\\.]\\d\x7b2\x7d)"

def simplePattern : String := "^(\\d+)\\s+([А-Яа-яA-Za-z0-9\\s,\\.\\-\\(\\)]\x7b5,\x7d?)\\s+([А-Яа-яA-Za-z]\x7b1,5\x7d)\\s+(\\d+)"

def fallbackPattern : String := "(\\d+)\\s+([А-Яа-яA-Za-z]\x7b1,5\x7d)\\s+([\\d\\s]\x7b1,\x7d[,\\.]\\d\x7b2\x7d)\\s+([\\d\\s]\x7b1,\x7d[,\\.]\\d\x7b2\x7d)"

def knownUnits1 : List String := ["шт", "кг", "м", "л", "г", "т", "ед", "компл", "упак"]

def knownUnits2 : List String :=
  ["шт", "кг", "м", "л", "г", "т", "ед", "компл", "упак", "рул", "лист"]

/-- Group text with the participation default `""` (these groups always
participate when their pattern matches). -/
def grpD (m : PyMatch) (text : String) (i : Nat) : String :=
  (m.grp text i).getD ""

/-- Line continuation (lines 356–378): possibly merge the next one or
two lines onto the current one. -/
def combineLines (lineClean : String) (next1? next2? : Option String) : String :=
  match next1? with
  | none => lineClean
  | some n1 =>
    let nextLine := pyStrip n1
    let shouldCombine :=
      ((research flagsNone "\\d+" lineClean).isSome ∨
        (research flagsNone "[\\d\\s]\x7b1,\x7d[,\\.]\\d\x7b2\x7d" lineClean).isSome) ∧
      pyLen nextLine > 0 ∧
      (research flagsI "^(итого|всего|ндс)" nextLine).isNone ∧
      (rematch flagsNone "^\\d+\\s" nextLine).isNone ∧
      pyLen nextLine < 100
    if shouldCombine then
      let combined := lineClean ++ " " ++ nextLine
      match next2? with
      | none => combined
      | some n2 =>
        let nextLine2 := pyStrip n2
        if (research flagsNone "[\\d\\s]\x7b3,\x7d[,\\.]\\d\x7b2\x7d" combined).isNone ∧
            (research flagsI "^(итого|всего|ндс)" nextLine2).isNone ∧
            (rematch flagsNone "^\\d+\\s" nextLine2).isNone ∧
            pyLen nextLine2 < 100 then
          combined ++ " " ++ nextLine2
        else combined
    else lineClean

/-- The grammar cascade (lines 380–420): the winning match together
with the `is_simple_format` / `is_no_terms` flags. -/
inductive RowGrammar where
  | simpleFmt (m : PyMatch)
  | fullFmt (m : PyMatch)
  | noTermsFmt (m : PyMatch)
  | noMatch

def rowGrammarOf (combined : String) : RowGrammar :=
  let alt? :=
    match research flagsI altPattern combined with
    | some m =>
      let name := pyStrip (grpD m combined 2)
      if pyLen name ≥ 5 ∧ ¬ pyIsDigit (pyStrip name) then some m else none
    | none => none
  match alt? with
  | some m => .simpleFmt m
  | none =>
    let simple? :=
      match research flagsNone simpleItemPattern combined with
      | some m =>
        let name := pyStrip (grpD m combined 2)
        if pyLen name ≥ 5 then some m else none
      | none => none
    match simple? with
    | some m => .simpleFmt m
    | none =>
      match research flagsNone itemPattern combined with
      | some m => .fullFmt m
      | none =>
        match research flagsNone itemPatternNoTerms combined with
        | some m => .noTermsFmt m
        | none => .noMatch

/-- Item construction for the three grammars (lines 424–459). -/
def buildGrammarItem (combined : String) : RowGrammar → Option Item
  | .simpleFmt m => some {
      number := some (pyStrip (grpD m combined 1)),
      name := some (pyStrip (grpD m combined 2)),
      quantity := some (pyStrip (grpD m combined 3)),
      unit := some (pyStrip (grpD m combined 4)),
      priceWithoutVat := some (cleanAmt (grpD m combined 5)),
      totalWithVat := some (cleanAmt (grpD m combined 6)),
      amountWithoutVat := some (cleanAmt (grpD m combined 6)),
      deliveryTerms := none,
      vatAmount := none }
  | .noTermsFmt m => some {
      number := some (pyStrip (grpD m combined 1)),
      name := some (pyStrip (grpD m combined 2)),
      unit := some (pyStrip (grpD m combined 3)),
      quantity := some (pyStrip (grpD m combined 4)),
      deliveryTerms := none,
      priceWithoutVat := if m.lastidx ≥ 5 then some (cleanAmt (grpD m combined 5)) else none,
      amountWithoutVat := if m.lastidx ≥ 6 then some (cleanAmt (grpD m combined 6)) else none,
      vatAmount := if m.lastidx ≥ 7 then some (cleanAmt (grpD m combined 7)) else none,
      totalWithVat := if m.lastidx ≥ 8 then some (cleanAmt (grpD m combined 8)) else none }
  | .fullFmt m => some {
      number := some (pyStrip (grpD m combined 1)),
      name := some (pyStrip (grpD m combined 2)),
      unit := some (pyStrip (grpD m combined 3)),
      quantity := some (pyStrip (grpD m combined 4)),
      deliveryTerms :=
        if m.lastidx ≥ 5 ∧ pyTruthy (grpD m combined 5)
        then some (pyStrip (grpD m combined 5)) else none,
      priceWithoutVat := if m.lastidx ≥ 6 then some (cleanAmt (grpD m combined 6)) else none,
      amountWithoutVat := if m.lastidx ≥ 7 then some (cleanAmt (grpD m combined 7)) else none,
      vatAmount := if m.lastidx ≥ 8 then some (cleanAmt (grpD m combined 8)) else none,
      totalWithVat := if m.lastidx ≥ 9 then some (cleanAmt (grpD m combined 9)) else none }
  | .noMatch => none

/-- The `simple_pattern` block (lines 470–500). -/
def buildSimplePatternItem (combined : String) : Option Item :=
  match research flagsNone simplePattern combined with
  | none => none
  | some m =>
    let amounts := findallAmounts combined
    let validAmounts := validAmountsOf amounts
    if validAmounts.length ≥ 3 then
      some {
        number := some (pyStrip (grpD m combined 1)),
        name := some (pyStrip (grpD m combined 2)),
        unit := some (pyStrip (grpD m combined 3)),
        quantity := some (pyStrip (grpD m combined 4)),
        priceWithoutVat := (validAmounts.get? 0).map cleanAmt,
        amountWithoutVat := (validAmounts.get? 1).map cleanAmt,
        vatAmount := (validAmounts.get? 2).map cleanAmt,
        totalWithVat := validAmounts.getLast?.map cleanAmt }
    else none

/-- `is_total_line` of the fallback block (lines 528–533). -/
def isTotalLine (combined : String) : Bool :=
  (research flagsI "^(итого|всего|ндс)" (pyTake combined 30)).isSome ||
  (research flagsI "итого\\s*[:]" combined).isSome ||
  (research flagsI "всего\\s+к\\s+оплате" combined).isSome ||
  (research flagsI "в\\s+том\\s+числе\\s+ндс" combined).isSome

/-- The heuristic fallback with `fallback_match = True` (lines 537–616). -/
def buildFallback2Item (combined : String) : Option Item :=
  let numbers := findallNumbers combined
  let amounts := findallAmounts combined
  let largeNumbers := numbers.filter (fun n => pyLen n ≥ 4)
  let validAmounts := validAmountsOf amounts
  let validAmounts :=
    if validAmounts.length < 2 ∧ largeNumbers.length ≥ 2 then
      validAmounts ++ ((largeNumbers.drop (largeNumbers.length - 2)).filter
        (fun ln => pyLen ln ≥ 4)).map (fun ln => ln ++ ",00")
    else validAmounts
  if (validAmounts.length ≥ 1 ∧ numbers.length ≥ 2) ∨ largeNumbers.length ≥ 2 then
    let unit :=
      match knownUnits2.find? (fun u => pyContains (pyLower combined) u) with
      | some u => u
      | none => "шт"
    let unit :=
      if unit = "шт" then
        match research flagsNone "\\d+\\s+([А-Яа-яA-Za-z]\x7b1,5\x7d)\\s+" combined with
        | some m =>
          let potentialUnit := pyLower (grpD m combined 1)
          if pyLen potentialUnit ≤ 5 ∧ ¬ pyIsDigit potentialUnit then potentialUnit else unit
        | none => unit
      else unit
    let (name, quantity) :=
      match research flagsNone "([А-Яа-яA-Za-z\\s]\x7b5,\x7d?)\\s+(\\d\x7b1,3\x7d)\\s+" combined with
      | some m =>
        let nm := pyStrip (grpD m combined 1)
        let potentialQty := grpD m combined 2
        if 1 ≤ pyIntDigits potentialQty ∧ pyIntDigits potentialQty ≤ 999 then
          (nm, potentialQty)
        else
          (pyStrip (pyTake combined 50),
           if numbers.length > 1 then (numbers.get? 1).getD "1" else "1")
      | none =>
        (pyStrip (pyTake combined 50),
         if numbers.length > 1 then (numbers.get? 1).getD "1" else "1")
    let name := subLeadIndex name
    let name := subLeadBars name
    let quantity :=
      if pyIsDigit quantity ∧ pyIntDigits quantity > 1000 then
        let smallNumbers := numbers.filter (fun n => 1 ≤ pyIntDigits n ∧ pyIntDigits n ≤ 999)
        (smallNumbers.head?).getD "1"
      else quantity
    if pyLen name ≥ 3 ∧
        (research flagsI "^(итого|всего|ндс|b\\s+tom|всето)" (pyTake name 20)).isNone then
      let (price, total) : Option String × Option String :=
        if validAmounts.length ≥ 2 then
          ((validAmounts.get? 0).map cleanAmt, validAmounts.getLast?.map cleanAmt)
        else if validAmounts.length = 1 then
          let total := (validAmounts.get? 0).map cleanAmt
          let price :=
            if pyIsDigit quantity ∧ pyIntDigits quantity > 0 then
              match total with
              | some t =>
                (match pyFloat t with
                 | some (.finite tf) =>
                   some (pyFloatRepr (.finite (ratDiv tf (mkRat (pyIntDigits quantity) 1))))
                 | _ => total)
              | none => total
            else none
          (price, total)
        else (none, none)
      some {
        number := some "1",
        name := some (pyTake name 200),
        quantity := some quantity,
        unit := some unit,
        priceWithoutVat := price,
        totalWithVat := total,
        amountWithoutVat := total }
    else none
  else none

/-- The `fallback_pattern` branch with a real match object
(lines 617–634). -/
def buildFallback1Item (combined : String) (m : PyMatch) : Option Item :=
  let namePart := pyStrip (pyTake combined m.mstart)
  let namePart := subLeadIndex namePart
  if pyLen namePart ≥ 3 then
    some {
      number := some "1",
      name := some (pyTake namePart 200),
      quantity := some (pyStrip (grpD m combined 1)),
      unit := if m.lastidx ≥ 2 then some (pyStrip (grpD m combined 2)) else some "шт",
      priceWithoutVat := if m.lastidx ≥ 3 then some (cleanAmt (grpD m combined 3)) else none,
      totalWithVat := if m.lastidx ≥ 4 then some (cleanAmt (grpD m combined 4)) else none,
      amountWithoutVat := if m.lastidx ≥ 4 then some (cleanAmt (grpD m combined 4)) else none }
  else none

/-- The whole fallback block (lines 502–637): either the anchored
`fallback_pattern`, or the numbers/amounts heuristic with
`fallback_match = True`. -/
def buildFallbackItem (combined : String) : Option Item :=
  match research flagsNone fallbackPattern combined with
  | some m =>
    if isTotalLine combined then none else buildFallback1Item combined m
  | none =>
    let numbers := findallNumbers combined
    let amounts := findallAmounts combined
    let largeNumbers := numbers.filter (fun n => pyLen n ≥ 4)
    let hasPotential :=
      (numbers.length ≥ 3 ∧ amounts.length ≥ 1) ∨
      largeNumbers.length ≥ 2 ∨ numbers.length ≥ 4
    if hasPotential then
      let unitMatch := research flagsNone "\\d+\\s+([А-Яа-яA-Za-z]\x7b1,5\x7d)\\s+" combined
      let hasUnit := unitMatch.isSome ∨
        knownUnits1.any (fun u => pyContains (pyLower combined) u)
      if hasUnit ∨ amounts.length ≥ 1 ∨ largeNumbers.length ≥ 2 then
        if isTotalLine combined then none else buildFallback2Item combined
      else none
    else none

/-- The minimal description fallback (lines 639–659), applied to the
*unmerged* line. -/
def buildMinimalItem (lineClean : String) : Option Item :=
  if (research flagsI "^итого\\s*$|^всего\\s*$|итого\\s+без\\s+ндс|всего\\s+с\\s+ндс"
      lineClean).isSome then none
  else
    match research flagsNone "([А-Яа-яA-Za-z0-9\\s,\\.\\-\\(\\)]\x7b10,\x7d)" lineClean with
    | none => none
    | some dm =>
      let desc := pyStrip (grpD dm lineClean 1)
      if (rematch flagsI "^(итого|всего)" desc).isSome then none
      else if pyLen desc > 10 then
        let amounts := findallAmounts lineClean
        if amounts.isEmpty then none
        else
          let validAmounts := validAmountsOf amounts
          match validAmounts.getLast? with
          | none => none
          | some last =>
            let amount := subTrailNonNum (cleanAmt last)
            let price :=
              if validAmounts.length ≥ 2 then
                subTrailNonNum (cleanAmt ((validAmounts.get?
                  (validAmounts.length - 2)).getD last))
              else amount
            some { name := some (pyTake desc 200),
                   priceWithoutVat := some price,
                   totalWithVat := some amount }
      else none

/-- Result of processing one in-section line: items to append (the
Python `i += 1` after a merge does not affect a `for`-loop over
`enumerate`, so no skip information exists to return), or stop the
scan. -/
inductive RowStep where
  | stop
  | emit (items : List Item)

/-- Processing of one non-blank line inside the items section
(lines 320–659). -/
def processRow (lineClean : String) (next1? next2? : Option String) : RowStep :=
  let startsWithNumber := (rematch flagsNone "^\\d+\\s" lineClean).isSome
  let hasAmount := (research flagsNone "[\\d\\s]\x7b3,\x7d[,\\.]\\d\x7b2\x7d" lineClean).isSome
  let isCategory :=
    ¬ (startsWithNumber ∨ hasAmount) ∧
    pyLen lineClean > 10 ∧
    (["производство", "товар", "услуг", "работ"].any
      (fun kw => pyContains (pyLower lineClean) kw)) ∧
    (research flagsI "^(перечень|наименование|категория|№|номер)" lineClean).isSome
  if isCategory then .emit []
  else
    let headerCount := (["№", "изм", "ед.", "ед ", "кол-во", "цена", "сумма"].filter
      (fun kw => pyContains (pyLower lineClean) kw)).length
    if headerCount ≥ 3 ∧ ¬ startsWithNumber then .emit []
    else if itemsEndKeywords.any (fun kw => (research flagsI kw lineClean).isSome) then .stop
    else if (research flagsI "^итого\\s*$|^всего\\s*$|итого\\s+без\\s+ндс|всего\\s+с\\s+ндс"
        lineClean).isSome then .emit []
    else
      let combined := combineLines lineClean next1? next2?
      match rowGrammarOf combined with
      | .noMatch =>
        (match buildSimplePatternItem combined with
         | some item => .emit [item]
         | none =>
           match buildFallbackItem combined with
           | some item => .emit [item]
           | none =>
             match buildMinimalItem lineClean with
             | some item => .emit [item]
             | none => .emit [])
      | g =>
        match buildGrammarItem combined g with
        | some item => .emit [item]
        | none => .emit []

/-- The `for i, line in enumerate(lines)` loop of `_extract_items`.
Reassigning `i` inside the loop body does not change which element
`enumerate` yields next, so every line is visited exactly once — the
recursion therefore always advances by one line. -/
def extractItemsLoop : List String → Bool → List Item → List Item
  | [], _, items => items
  | line :: rest, inSection, items =>
    let lineClean := pyStrip line
    if ¬ pyTruthy lineClean then extractItemsLoop rest inSection items
    else if ¬ inSection then
      if itemsStartKeywordsPriority.any (fun kw => (research flagsI kw lineClean).isSome) then
        extractItemsLoop rest true items
      else if itemsStartKeywordsSecondary.any
          (fun kw => (research flagsI kw lineClean).isSome) then
        extractItemsLoop rest (hasHeaderToken lineClean) items
      else
        extractItemsLoop rest inSection items
    else
      let next1? := (rest.get? 0).map pyStrip
      let next2? := (rest.get? 1).map pyStrip
      match processRow lineClean next1? next2? with
      | .stop => items
      | .emit newItems => extractItemsLoop rest inSection (items ++ newItems)

/-- `InvoiceDataExtractor._extract_items` (line 272): `None` when no
item was found. -/
def extractItems (text : String) : Option (List Item) :=
  let lines := pySplitNl text
  let items := extractItemsLoop lines false []
  if items.isEmpty then none else some items

/-! ## Section extractors and builders -/

/-- `_extract_vat` (line 668): `(rate, amount)` when found. -/
def vatPatterns : List String := [
  "в\\s+том\\s+числе\\s+ндс\\s*(\\d+)\\s*%\\s*[:\\-]?\\s*([\\d\\s,\\.]\x7b3,\x7d[,\\.]\\d\x7b2\x7d)",
  "ндс\\s*\\(?(\\d+)\\s*%\\)?\\s*[:\\-]?\\s*([\\d\\s,\\.]\x7b3,\x7d[,\\.]\\d\x7b2\x7d)",
  "НДС\\s*(\\d+)\\s*%\\s*[:\\-]?\\s*([\\d\\s,\\.]\x7b3,\x7d[,\\.]\\d\x7b2\x7d)",
  "ндс\\s*(\\d+)\\s*%\\s*[:\\-]?\\s*([\\d\\s,\\.]\x7b3,\x7d[,\\.]\\d\x7b2\x7d)",
  "в\\s+том\\s+числе\\s+ндс\\s*[:\\-]?\\s*([\\d\\s,\\.]\x7b3,\x7d[,\\.]\\d\x7b2\x7d)",
  "(?:НДС|VAT|vat)\\s*[:\\-]?\\s*([\\d\\s,\\.]\x7b3,\x7d[,\\.]\\d\x7b2\x7d)\\s*(?:руб|RUB)",
  "НДС\\s*(\\d+)\\s*%\\s*[:\\-]?\\s*([\\d\\s,\\.]+)",
  "VAT\\s*(\\d+)\\s*%\\s*[:\\-]?\\s*([\\d\\s,\\.]+)"]

def extractVatGo (text : String) : List String → Option (String × String)
  | [] => none
  | pat :: rest =>
    match research flagsI pat text with
    | none => extractVatGo text rest
    | some m =>
      let rate : Option String :=
        if m.lastidx ≥ 1 ∧ pyIsDigit (grpD m text 1) then some (grpD m text 1) else none
      let amount : Option String :=
        if m.lastidx ≥ 2 then some (pyStrip (grpD m text 2))
        else if m.lastidx ≥ 1 then some (pyStrip (grpD m text 1))
        else none
      match amount with
      | some a =>
        if pyTruthy a then
          let rate :=
            match rate with
            | some r => some r
            | none =>
              let seg := if m.mstart ≠ 0 then pyTake text m.mstart else text
              (research flagsI "(\\d+)\\s*%" seg).bind (fun rm => rm.grp seg 1)
          let rateStr := match rate with
            | some r => if pyTruthy r then r else "20"
            | none => "20"
          some (rateStr, a)
        else extractVatGo text rest
      | none => extractVatGo text rest

def extractVat (text : String) : Option (String × String) :=
  extractVatGo text vatPatterns

/-- `_extract_currency` (line 698): always yields a string
(`'RUB'` default). -/
def currencyPatterns : List String := [
  "([A-Z]\x7b3\x7d)\\s*(?:руб|RUB|USD|EUR)",
  "(?:руб|RUB|₽)",
  "(?:USD|\\$)",
  "(?:EUR|€)"]

def extractCurrencyGo (text : String) : List String → String
  | [] => "RUB"
  | pat :: rest =>
    match research flagsI pat text with
    | none => extractCurrencyGo text rest
    | some m =>
      let currency : Option String :=
        if m.lastidx ≠ 0 then m.grp text 1 else some (m.grp0 text)
      match currency with
      | some c =>
        if pyTruthy c then pyUpper c
        else
          let g0 := m.grp0 text
          if pyContains (pyLower g0) "руб" ∨ pyContains (pyLower g0) "rub" then "RUB"
          else if pyContains (pyLower g0) "usd" ∨ pyContains g0 "$" then "USD"
          else if pyContains (pyLower g0) "eur" ∨ pyContains g0 "€" then "EUR"
          else extractCurrencyGo text rest
      | none => extractCurrencyGo text rest

def extractCurrency (text : String) : String :=
  extractCurrencyGo text currencyPatterns

/-- First match → stripped group 1, over a pattern list with
`IGNORECASE | MULTILINE` (the `_extract_seller_inn`-style loops). -/
def firstGroup1 (fl : ReFlags) (text : String) : List String → Option String
  | [] => none
  | pat :: rest =>
    match research fl pat text with
    | none => firstGroup1 fl text rest
    | some m => some (pyStrip (grpD m text 1))

/-- `_extract_seller_inn` (line 736). -/
def sellerInnPatterns : List String := [
  "поставщик[^п]*?ИНН\\s*[:\\-]?\\s*(\\d\x7b10,12\x7d)(?![^п]*покупатель)",
  "исполнитель[^п]*?ИНН\\s*[:\\-]?\\s*(\\d\x7b10,12\x7d)(?![^п]*покупатель)",
  "продавец[^п]*?ИНН\\s*[:\\-]?\\s*(\\d\x7b10,12\x7d)(?![^п]*покупатель)",
  "поставщик[^п]*?[:\\-]?[^\\d]*ИНН\\s*[:\\-]?\\s*(\\d\x7b10,12\x7d)(?![^п]*покупатель)",
  "исполнитель[^п]*?[:\\-]?[^\\d]*ИНН\\s*[:\\-]?\\s*(\\d\x7b10,12\x7d)(?![^п]*покупатель)",
  "продавец[^п]*?[:\\-]?[^\\d]*ИНН\\s*[:\\-]?\\s*(\\d\x7b10,12\x7d)(?![^п]*покупатель)"]

def extractSellerInn (text : String) : Option String :=
  firstGroup1 flagsIM text sellerInnPatterns

/-- `_extract_seller_kpp` (line 757). -/
def sellerKppPatterns : List String := [
  "поставщик.*?КПП\\s*(\\d\x7b9\x7d)(?!.*покупатель)",
  "исполнитель.*?КПП\\s*(\\d\x7b9\x7d)(?!.*покупатель)",
  "продавец.*?КПП\\s*(\\d\x7b9\x7d)(?!.*покупатель)",
  "поставщик.*?ИНН\\s*\\d\x7b10,12\x7d.*?КПП\\s*(\\d\x7b9\x7d)(?!.*покупатель)",
  "исполнитель.*?ИНН\\s*\\d\x7b10,12\x7d.*?КПП\\s*(\\d\x7b9\x7d)(?!.*покупатель)",
  "продавец.*?ИНН\\s*\\d\x7b10,12\x7d.*?КПП\\s*(\\d\x7b9\x7d)(?!.*покупатель)",
  "поставщик[^п]*?КПП\\s*[:\\-]?\\s*(\\d\x7b9\x7d)(?![^п]*покупатель)",
  "исполнитель[^п]*?КПП\\s*[:\\-]?\\s*(\\d\x7b9\x7d)(?![^п]*покупатель)",
  "продавец[^п]*?КПП\\s*[:\\-]?\\s*(\\d\x7b9\x7d)(?![^п]*покупатель)"]

def extractSellerKpp (text : String) : Option String :=
  firstGroup1 flagsIM text sellerKppPatterns

/-- `_extract_buyer_inn` (line 781). -/
def buyerInnPatterns : List String := [
  "покупатель[^:]*[:\\-]?[^\\d]*ИНН\\s*[:\\-]?\\s*(\\d\x7b10,12\x7d)",
  "заказчик[^:]*[:\\-]?[^\\d]*ИНН\\s*[:\\-]?\\s*(\\d\x7b10,12\x7d)",
  "клиент[^:]*[:\\-]?[^\\d]*ИНН\\s*[:\\-]?\\s*(\\d\x7b10,12\x7d)"]

def extractBuyerInn (text : String) : Option String :=
  firstGroup1 flagsIM text buyerInnPatterns

/-- `_extract_buyer_kpp` (line 796). -/
def buyerKppPatterns : List String := [
  "покупатель[^:]*[:\\-]?[^\\d]*КПП\\s*[:\\-]?\\s*(\\d\x7b9\x7d)",
  "заказчик[^:]*[:\\-]?[^\\d]*КПП\\s*[:\\-]?\\s*(\\d\x7b9\x7d)",
  "клиент[^:]*[:\\-]?[^\\d]*КПП\\s*[:\\-]?\\s*(\\d\x7b9\x7d)"]

def extractBuyerKpp (text : String) : Option String :=
  firstGroup1 flagsIM text buyerKppPatterns

/-- `_extract_seller_address` (line 811): patterns with
`IGNORECASE | MULTILINE | DOTALL`; the last pattern's capture is refined
by two inner searches. -/
def sellerAddressPatterns : List String := [
  "поставщик.*?адрес[^:]*?[:\\-]?\\s*([^\\n]\x7b10,200\x7d?)(?=\\s*(?:ИНН|КПП|Тел|Телефон|Покупатель|р/с|к/с|$))",
  "поставщик.*?КПП\\s*\\d\x7b9\x7d.*?\\n\\s*([0-9]\x7b5,6\x7d[^\\n]\x7b10,200\x7d?)(?=\\s*(?:Тел|Телефон|р/с|к/с|Покупатель|$))",
  "поставщик.*?ИНН\\s*\\d\x7b10,12\x7d.*?КПП\\s*\\d\x7b9\x7d.*?\\n\\s*([0-9]\x7b5,6\x7d[^\\n]\x7b10,200\x7d?)(?=\\s*(?:Тел|Телефон|р/с|к/с|Покупатель|$))",
  "поставщик.*?КПП\\s*\\d\x7b9\x7d\\s+([0-9]\x7b5,6\x7d[^\\n]\x7b10,200\x7d?)(?=\\s*(?:Тел|Телефон|р/с|к/с|Покупатель|$))",
  "поставщик.*?КПП\\s*\\d\x7b9\x7d.*?([0-9]\x7b5,6\x7d[^\\n]\x7b10,200\x7d?)(?=\\s*(?:Тел|Телефон|р/с|к/с|Покупатель|$))",
  "поставщик.*?КПП\\s*\\d\x7b9\x7d(.*?)(?=покупатель|$)"]

def sellerAddressRefine1 : String :=
  "([0-9]\x7b5,6\x7d[^\\n]\x7b10,200\x7d?)(?=\\s*(?:Тел|Телефон|р/с|к/с|Покупатель|$))"

def sellerAddressRefine2 : String :=
  "([0-9]\x7b5,6\x7d.*?(?:область|обл|город|г\\.|ул\\.|улица|д\\.|дом|офис|помещ).\x7b10,200\x7d?)(?=\\s*(?:Тел|Телефон|р/с|к/с|Покупатель|$))"

def extractSellerAddressGo (text : String) : List (Nat × String) → Option String
  | [] => none
  | (idx, pat) :: rest =>
    match research flagsIMS pat text with
    | none => extractSellerAddressGo text rest
    | some m =>
      let address := pyStrip (grpD m text 1)
      let address := subWsSpace address
      let address := subNlSpace address
      if idx = sellerAddressPatterns.length - 1 then
        match research flagsI sellerAddressRefine1 address with
        | some am =>
          let address2 := pyStrip (grpD am address 1)
          if pyLen address2 > 10 then some address2 else extractSellerAddressGo text rest
        | none =>
          match research flagsI sellerAddressRefine2 address with
          | some am =>
            let address2 := pyStrip (grpD am address 1)
            if pyLen address2 > 10 then some address2 else extractSellerAddressGo text rest
          | none => extractSellerAddressGo text rest
      else if pyLen address > 10 then some address
      else extractSellerAddressGo text rest

def extractSellerAddress (text : String) : Option String :=
  extractSellerAddressGo text sellerAddressPatterns.enum

/-- `_extract_seller_phone` (line 845). -/
def sellerPhonePatterns : List String := [
  "поставщик.*?тел[^:]*?[:\\-]?\\s*([+\\d\\s\\-\\(\\)]\x7b7,20\x7d)(?!.*покупатель)",
  "поставщик.*?телефон[^:]*?[:\\-]?\\s*([+\\d\\s\\-\\(\\)]\x7b7,20\x7d)(?!.*покупатель)",
  "поставщик.*?КПП\\s*\\d\x7b9\x7d.*?([0-9]\x7b5,6\x7d.*?)([8]\\d\x7b10\x7d)(?!.*покупатель)",
  "поставщик.*?[0-9]\x7b5,6\x7d.*?([8]\\d\x7b10\x7d)(?!.*покупатель)"]

def extractSellerPhoneGo (text : String) (buyerPhone : Option String)
    (buyerKeywordPos : Int) : List String → Option String
  | [] => none
  | pat :: rest =>
    match research flagsIMS pat text with
    | none => extractSellerPhoneGo text buyerPhone buyerKeywordPos rest
    | some m =>
      let phone :=
        if m.lastidx ≥ 2 then pyStrip (grpD m text 2) else pyStrip (grpD m text 1)
      let phone := subWsEmpty phone
      if phone.data.head? = some '8' ∧ pyLen phone = 11 then
        let phoneStartPos : Int := (m.mstart : Int)
        if phoneStartPos > buyerKeywordPos then
          extractSellerPhoneGo text buyerPhone buyerKeywordPos rest
        else if buyerPhone = some phone then
          extractSellerPhoneGo text buyerPhone buyerKeywordPos rest
        else
          let sellerKeywordPos := pyFind (pyLower text) "поставщик"
          if sellerKeywordPos ≠ -1 ∧ phoneStartPos > sellerKeywordPos + 500 then
            extractSellerPhoneGo text buyerPhone buyerKeywordPos rest
          else some phone
      else extractSellerPhoneGo text buyerPhone buyerKeywordPos rest

def extractSellerPhone (text : String) (buyerPhone : Option String) : Option String :=
  let pos := pyFind (pyLower text) "покупатель"
  let buyerKeywordPos : Int := if pos = -1 then (pyLen text : Int) else pos
  extractSellerPhoneGo text buyerPhone buyerKeywordPos sellerPhonePatterns

/-- `_extract_buyer_address` (line 889). -/
def buyerAddressPatterns : List String := [
  "покупатель[^:]*?адрес[^:]*?[:\\-]?\\s*([^\\n]\x7b10,200\x7d?)(?=\\s*(?:ИНН|КПП|Тел|Телефон|$))",
  "покупатель[^:]*?[:\\-]?\\s*[^\\n]*?ИНН[^\\n]*?КПП[^\\n]*?([0-9]\x7b5,6\x7d[^\\n]\x7b10,150\x7d?)(?=\\s*(?:Тел|Телефон|$))",
  "покупатель[^:]*?[:\\-]?\\s*[^\\n]*?КПП[^\\n]*?([0-9]\x7b5,6\x7d[^\\n]\x7b10,150\x7d?)(?=\\s*(?:Тел|Телефон|$))"]

def extractBuyerAddressGo (text : String) : List String → Option String
  | [] => none
  | pat :: rest =>
    match research flagsIMS pat text with
    | none => extractBuyerAddressGo text rest
    | some m =>
      let address := subWsSpace (pyStrip (grpD m text 1))
      if pyLen address > 10 then some address else extractBuyerAddressGo text rest

def extractBuyerAddress (text : String) : Option String :=
  extractBuyerAddressGo text buyerAddressPatterns

/-- `_extract_buyer_phone` (line 907). -/
def buyerPhonePatterns : List String := [
  "покупатель[^:]*?тел[^:]*?[:\\-]?\\s*([+\\d\\s\\-\\(\\)]\x7b7,20\x7d)",
  "покупатель[^:]*?телефон[^:]*?[:\\-]?\\s*([+\\d\\s\\-\\(\\)]\x7b7,20\x7d)",
  "покупатель[^:]*?[:\\-]?\\s*[^\\n]*?([8]\\s*[\\(\\-]?\\s*\\d\x7b3\x7d\\s*[\\)\\-]?\\s*\\d\x7b3\x7d[\\s\\-]?\\d\x7b2\x7d[\\s\\-]?\\d\x7b2\x7d)"]

def extractBuyerPhoneGo (text : String) : List String → Option String
  | [] => none
  | pat :: rest =>
    match research flagsIM pat text with
    | none => extractBuyerPhoneGo text rest
    | some m => some (subWsSpace (pyStrip (grpD m text 1)))

def extractBuyerPhone (text : String) : Option String :=
  extractBuyerPhoneGo text buyerPhonePatterns

/-- Append an optional entry to a dict field list. -/
def optEntry (k : String) (v : Option String) : List (String × PyVal) :=
  match v with
  | some s => [(k, .str s)]
  | none => []

/-- `_build_invoice_section` (line 924). -/
def buildInvoiceSection (text : String)
    (invoiceNumber invoiceDate : Option String) : Option PyVal :=
  let fields :=
    optEntry "number" invoiceNumber ++
    optEntry "date" invoiceDate ++
    optEntry "validity_period"
      ((research flagsI "действителен\\s+в\\s+течение\\s+(\\d+\\s+банковских?\\s+дней?)"
        text).bind (fun m => m.grp text 1)) ++
    optEntry "title"
      ((research flagsI "(СЧЁТ\\s*№\\s*[\\d/]+\\s+от\\s+[\\d\\.]+)" text).bind
        (fun m => m.grp text 1))
  if fields.isEmpty then none else some (.dict fields)

/-- `_extract_bank_details` (line 1125). -/
def extractBankDetails (text : String) : Option PyVal :=
  let fields :=
    optEntry "account"
      ((research flagsI "р/с\\s*[:\\-]?\\s*(\\d\x7b20\x7d)" text).bind (fun m => m.grp text 1)) ++
    optEntry "correspondent_account"
      ((research flagsI "к/с\\s*[:\\-]?\\s*(\\d\x7b20\x7d)" text).bind (fun m => m.grp text 1)) ++
    optEntry "bik"
      ((research flagsI "БИК\\s*[:\\-]?\\s*(\\d\x7b9\x7d)" text).bind (fun m => m.grp text 1)) ++
    optEntry "bank_name"
      ((research flagsI "в\\s+([А-Яа-я\\s\\\"\\(\\)]+(?:Банк|Банка|ПАО|АО)[А-Яа-я\\s\\\"\\(\\)]*)"
        text).map (fun m => pyStrip (grpD m text 1)))
  if fields.isEmpty then none else some (.dict fields)

/-- `_extract_contract` (line 1147). -/
def extractContract (text : String) : Option PyVal :=
  let fields :=
    optEntry "number"
      ((research flagsI "договор[^\\n]*?№\\s*([\\d/\\-]+)" text).bind (fun m => m.grp text 1)) ++
    optEntry "date"
      ((research flagsI "договор[^\\n]*?от\\s*(\\d\x7b2\x7d\\.\\d\x7b2\x7d\\.\\d\x7b4\x7d)"
        text).bind (fun m => m.grp text 1))
  if fields.isEmpty then none else some (.dict fields)

/-- `_build_supplier_section` (line 942). -/
def buildSupplierSection (text : String)
    (sellerName buyerPhone : Option String) : Option PyVal :=
  let fields :=
    optEntry "company_name" sellerName ++
    optEntry "inn" (extractSellerInn text) ++
    optEntry "kpp" (extractSellerKpp text) ++
    optEntry "address" (extractSellerAddress text) ++
    optEntry "phone" (extractSellerPhone text buyerPhone) ++
    (match extractBankDetails text with
     | some bd => [("bank_details", bd)]
     | none => [])
  if fields.isEmpty then none else some (.dict fields)

/-- `_build_customer_section` (line 971): the `contract` member is
always present — `{'number': None, 'date': None}` when no contract was
found — so the section is never empty. -/
def buildCustomerSection (text : String)
    (buyerName buyerPhone : Option String) : Option PyVal :=
  let fields :=
    optEntry "company_name" buyerName ++
    optEntry "inn" (extractBuyerInn text) ++
    optEntry "kpp" (extractBuyerKpp text) ++
    optEntry "address" (extractBuyerAddress text) ++
    optEntry "phone" buyerPhone ++
    [("contract",
      match extractContract text with
      | some c => c
      | none => .dict [("number", .null), ("date", .null)])]
  if fields.isEmpty then none else some (.dict fields)

/-- A truthiness-guarded numeric member (`if item.get(k):
line_item[k'] = self._clean_number(item[k])`). -/
def liNumEntry (k : String) (v : Option String) : List (String × PyVal) :=
  match v with
  | some s => if pyTruthy s then [(k, PyVal.num (cleanNumber s))] else []
  | none => []

/-- A truthiness-guarded string member. -/
def liStrEntry (k : String) (v : Option String) : List (String × PyVal) :=
  match v with
  | some s => if pyTruthy s then [(k, PyVal.str s)] else []
  | none => []

/-- One structured line item (`_extract_line_items_structured`'s loop
body, lines 1008–1029); `idx` is the 1-based enumeration index. -/
def buildLineItem (idx : Nat) (item : Item) : PyVal :=
  let lineNumber : PyVal :=
    if pyIsDigit (item.number.getD "") then .int (pyIntDigits (item.number.getD ""))
    else .int (idx : Int)
  PyVal.dict (
    [("line_number", lineNumber),
     ("product_name", .str (item.name.getD ""))] ++
    liStrEntry "unit" item.unit ++
    liNumEntry "quantity" item.quantity ++
    liStrEntry "delivery_terms" item.deliveryTerms ++
    liNumEntry "unit_price_without_vat" item.priceWithoutVat ++
    liNumEntry "amount_without_vat" item.amountWithoutVat ++
    liNumEntry "vat_amount" item.vatAmount ++
    liNumEntry "total_with_vat" item.totalWithVat)

/-- `_extract_line_items_structured` (line 1001); the `tables` argument
of the source is never read by the body and is omitted. -/
def extractLineItemsStructured (text : String) : List PyVal :=
  match extractItems text with
  | none => []
  | some items => items.enum.map (fun p => buildLineItem (p.1 + 1) p.2)

/-- `_build_financial_summary` (line 1033): always non-empty (the
currency default). -/
def buildFinancialSummary (text : String) : Option PyVal :=
  let subtotal :=
    match research flagsI
      "итого\\s+без\\s+ндс[^\\d]*?([\\d\\s,\\.]\x7b3,\x7d[,\\.]\\d\x7b2\x7d)" text with
    | some m => [("subtotal_without_vat", PyVal.num (cleanNumber (grpD m text 1)))]
    | none => []
  let vat :=
    match extractVat text with
    | some (rate, amount) =>
      [("vat_rate", PyVal.str (rate ++ "%")), ("vat_amount", PyVal.num (cleanNumber amount))]
    | none => []
  let total :=
    match research flagsI
      "всего\\s+с\\s+ндс[^\\d]*?([\\d\\s,\\.]\x7b3,\x7d[,\\.]\\d\x7b2\x7d)" text with
    | some m => [("total_with_vat", PyVal.num (cleanNumber (grpD m text 1)))]
    | none =>
      match extractField none "total_amount" text with
      | some t => [("total_with_vat", PyVal.num (cleanNumber t))]
      | none => []
  let inWords :=
    match research flagsI
      "([А-Яа-я\\s]+тысяч[а-я]*\\s+[А-Яа-я\\s]+рубл[а-я]+\\s+\\d+\\s+копеек)" text with
    | some m => [("total_in_words", PyVal.str (pyStrip (grpD m text 1)))]
    | none =>
      match research flagsI "([А-Яа-я\\s]+рубл[а-я]+\\s+\\d+\\s+копеек)" text with
      | some m => [("total_in_words", PyVal.str (pyStrip (grpD m text 1)))]
      | none => []
  let currency := [("currency", PyVal.str (pyUpper (extractCurrency text)))]
  let fields := subtotal ++ vat ++ total ++ inWords ++ currency
  if fields.isEmpty then none else some (.dict fields)

/-- `_extract_signatories` (line 1070). -/
def extractSignatories (text : String) : Option PyVal :=
  let fields :=
    optEntry "sales_director"
      ((research flagsI
        "директор\\s+по\\s+продажам[^\\n]*?([А-ЯЁ][а-яё]+\\s+[А-ЯЁ]\\.\\s*[А-ЯЁ]\\.)"
        text).bind (fun m => m.grp text 1)) ++
    optEntry "chief_accountant"
      ((research flagsI
        "главный\\s+бухгалтер[^\\n]*?([А-ЯЁ][а-яё]+\\s+[А-ЯЁ]\\.\\s*[А-ЯЁ]\\.)"
        text).bind (fun m => m.grp text 1)) ++
    optEntry "issued_by"
      ((research flagsI "выписал[^\\n]*?([А-ЯЁ][а-яё]+\\s+[А-ЯЁ]\\.\\s*[А-ЯЁ]\\.)"
        text).bind (fun m => m.grp text 1))
  if fields.isEmpty then none else some (.dict fields)

/-- `_extract_terms_and_conditions` (line 1088). -/
def extractTermsAndConditions (text : String) : Option PyVal :=
  let ms := finditer flagsIMS "(\\d+)\\.\\s+([^\\n]\x7b20,500\x7d?)(?=\\d+\\.|$)" text
  let terms := ms.filterMap (fun m =>
    let number := grpD m text 1
    let content := subWsSpace (pyStrip (grpD m text 2))
    if pyLen content > 20 then
      some (PyVal.dict [("number", .int (pyIntDigits number)), ("text", .str content)])
    else none)
  if terms.isEmpty then none else some (.list terms)

/-- `_extract_additional_info` (line 1107). -/
def extractAdditionalInfo (text : String) : Option PyVal :=
  let fields :=
    optEntry "pickup_address"
      ((research flagsI "самовывоз[^\\n]*?([А-Яа-я\\s,\\.\\d]\x7b20,150\x7d)" text).map
        (fun m => pyStrip (grpD m text 1))) ++
    optEntry "pickup_contact"
      ((research flagsI "контактным\\s+лицом[^\\n]*?([А-ЯЁ][а-яё]+\\s+[А-ЯЁ][а-яё]+)"
        text).bind (fun m => m.grp text 1)) ++
    optEntry "pickup_phone"
      ((research flagsI "тел\\.\\s*([8]\\d\x7b10\x7d)" text).bind (fun m => m.grp text 1))
  if fields.isEmpty then none else some (.dict fields)

/-- The keep-test of `_clean_result`: a member value is kept unless it
is `None`, an empty dict or an empty list. -/
def presentVal : PyVal → Bool
  | .null => false
  | .dict [] => false
  | .list [] => false
  | _ => true

/-- `_clean_result` (line 1186): drop `None`, empty dicts and empty
lists — at the top level only. -/
def cleanResult (fields : List (String × PyVal)) : List (String × PyVal) :=
  fields.filter (fun kv => presentVal kv.2)

/-- Optional section → the value stored in the raw result dict
(`None` sections become `null` and are pruned by `_clean_result`). -/
def sectionVal : Option PyVal → PyVal
  | some v => v
  | none => .null

/-- `InvoiceDataExtractor.extract_invoice_data` (line 131), with the
constructor-default configuration (`use_ml_validation=False`, as both
`main.py` entry points use it). -/
def extractInvoiceData (text : String) : PyVal :=
  let textClean := preprocessText text
  let buyerPhone := extractBuyerPhone textClean
  let invoiceNumber := extractField none "invoice_number" textClean
  let invoiceDate := extractField none "date" textClean
  let sellerName := extractField none "seller" textClean
  let buyerName := extractField none "buyer" textClean
  let result : List (String × PyVal) := [
    ("invoice", sectionVal (buildInvoiceSection textClean invoiceNumber invoiceDate)),
    ("supplier", sectionVal (buildSupplierSection textClean sellerName buyerPhone)),
    ("customer", sectionVal (buildCustomerSection textClean buyerName buyerPhone)),
    ("line_items", .list (extractLineItemsStructured textClean)),
    ("financial_summary", sectionVal (buildFinancialSummary textClean)),
    ("signatories", sectionVal (extractSignatories textClean)),
    ("terms_and_conditions", sectionVal (extractTermsAndConditions textClean)),
    ("additional_info", sectionVal (extractAdditionalInfo textClean))]
  .dict (cleanResult result)

/-! ## `main.py` — the image endpoint (`process_image`, line 124) -/

/-- The outcome the caller sees: an explicit failure response
(`success: false`, empty data) or a success response carrying the
record. -/
inductive ImageOutcome where
  | failure
  | success (data : PyVal)

/-- `process_image` (line 124) after OCR: a result that is empty or
trimmed-shorter than 10 characters is answered with the failure
response; otherwise extraction runs and a success response carries the
record. -/
def processImage (recog : Bool → Nat → String) : ImageOutcome :=
  let text := extractTextFromImage recog
  if ¬ pyTruthy text ∨ pyLen (pyStrip text) < 10 then .failure
  else .success (extractInvoiceData text)

/-! ## Spec-side definitions and concrete inputs used by the claims -/

/-- Per-page slot choice, following the spec's words (§4.1): a page's
native text is kept iff its trimmed length exceeds 50 characters;
otherwise that single page's OCR output takes the page's position
(omitted when empty).  Each slot also carries the page's contribution to
the aggregate length. -/
def pageChoiceSpec (ocrPage : Nat → String) (pageNum : Nat) :
    Option String → Option (String × Nat)
  | some text =>
    if pyTruthy text ∧ pyLen (pyStrip text) > 50 then
      some (pageBlock pageNum text, pyLen (pyStrip text))
    else
      let t := ocrPage pageNum
      if pyTruthy t then some (pageBlock pageNum t, pyLen (pyStrip t)) else none
  | none =>
    let t := ocrPage pageNum
    if pyTruthy t then some (pageBlock pageNum t, pyLen (pyStrip t)) else none

/-- The per-page slots of a document, starting at page `pageNum`. -/
def slotsFrom (ocrPage : Nat → String) : Nat → List (Option String) → List (String × Nat)
  | _, [] => []
  | pageNum, text? :: rest =>
    match pageChoiceSpec ocrPage pageNum text? with
    | some s => s :: slotsFrom ocrPage (pageNum + 1) rest
    | none => slotsFrom ocrPage (pageNum + 1) rest

/-- A native pass as the spec describes it: the document text is the
page slots joined in page order, the aggregate is the sum of the slots'
contributions. -/
def nativePassSpec (pages : List (Option String)) (ocrPage : Nat → String) :
    String × Nat :=
  let slots := slotsFrom ocrPage 1 pages
  (pyJoin "\n" (slots.map Prod.fst), (slots.map Prod.snd).sum)

/-- The numeric line-item member keys of the output record. -/
def numericKeys : List String :=
  ["quantity", "unit_price_without_vat", "amount_without_vat",
   "vat_amount", "total_with_vat"]

/-- A line item is well-typed in the sense of the amended C9: every
member under a numeric key is a Python float, and `line_number` is
present as a Python int. -/
def lineItemTyped (li : PyVal) : Bool :=
  (li.fields.all (fun kv => !(numericKeys.contains kv.1) || kv.2.isNum)) &&
  (match li.getKey "line_number" with
   | some (.int _) => true
   | _ => false)

/-- The items-table text exercising the line-continuation merge: line 2
lacks trailing amounts, is merged with line 3, and the merged line
matches the simple row grammar. -/
def tableScanText : String :=
  "перечень товаров\n1 Товары разные 2\nшт 10,00 20,00"

/-- A document holding a supplier block, later a buyer block, and then a
company name in the post-buyer tail that the first seller pattern
captures. -/
def crossSectionText : String :=
  "поставщик: ООО Альфа\nпокупатель: ООО Бета\nпоставщик ООО ТД \"Зенит\""

/-- A recognizer on which every preprocessed configuration fails the
50-character bar (PSM 6 and 11 produce nothing, PSM 12 produces 30
characters) while the unprocessed original would produce a long,
distinct text. -/
def recogPage30 : Bool → Nat → String :=
  fun preprocessed psm =>
    if preprocessed then
      if psm = 12 then "tridtsat-simvolov-rovno-30-ab." else ""
    else
      "UNPROCESSED-ORIGINAL-FALLBACK-TEXT-LONGER-THAN-FIFTY-CHARACTERS."

/-- A recognizer producing nothing at all. -/
def recogBlank : Bool → Nat → String := fun _ _ => ""

/-- All indices at which `needle` occurs in `hay`. -/
def occIdxs (needle hay : String) : List Nat :=
  (List.range (pyLen hay + 1)).filter (fun i => occursAt needle hay i)

/-- A validator collaborator that always raises. -/
def errValidator : ValidatorFn := fun _ _ _ => .error ()

/-- The normalization `_clean_number` applies before `float(...)`. -/
def cleanNumberNorm (value : String) : String :=
  pyReplace (pyReplace (pyReplace value " " "") "\"" "") "," "."

/-! ## Helper lemmas -/

theorem all_filter {α : Type} (p : α → Bool) (l : List α) :
    (l.filter p).all p = true := by
  induction l with
  | nil => rfl
  | cons a t ih =>
    by_cases h : p a = true
    · simp [List.filter, h, ih]
    · simp [List.filter, Bool.of_not_eq_true h, ih]

theorem cwsGo_length_le (b : Bool) (l : List Char) :
    (cwsGo b l).length ≤ l.length := by
  induction l generalizing b with
  | nil => simp [cwsGo]
  | cons c t ih =>
    simp only [cwsGo]
    split
    · split
      · exact Nat.le_succ_of_le (ih true)
      · simpa using ih true
    · simpa using ih false

theorem subWsSpace_length_le (s : String) : pyLen (subWsSpace s) ≤ pyLen s := by
  simpa [subWsSpace, pyLen] using cwsGo_length_le false s.data

/-! ## Claims -/

/-- **C10** — `_clean_number` is total on strings and never raises: an
empty input yields exactly `0.0`, and an input whose
space/quote/comma-normalized form still fails Python `float` parsing
also yields exactly `0.0` (totality itself is intrinsic: `cleanNumber`
is a Lean function).  -/
theorem c10_clean_number_total :
    cleanNumber "" = .finite 0 ∧
    (∀ s : String, ¬ pyTruthy s → cleanNumber s = .finite 0) ∧
    (∀ s : String, pyFloat (cleanNumberNorm s) = none → cleanNumber s = .finite 0) := by
  refine ⟨rfl, ?_, ?_⟩
  · intro s h
    simp [cleanNumber, h]
  · intro s h
    by_cases ht : pyTruthy s
    · simp [cleanNumber, ht, cleanNumberNorm] at h ⊢
      rw [h]
    · simp [cleanNumber, ht]

/-- Witness for C10 at the concrete garbled amount `"12,34,56"`
(normalizes to `"12.34.56"`, which `float` refuses). -/
theorem c10_clean_number_total_witness :
    pyFloat (cleanNumberNorm "12,34,56") = none ∧
    cleanNumber "12,34,56" = .finite 0 :=
  ⟨by rfl, c10_clean_number_total.2.2 "12,34,56" (by rfl)⟩

/-- **C7** — an image whose OCR result has trimmed length under 10 is
answered by `process_image` with the explicit failure response, never a
success with an empty record. -/
theorem c7_short_ocr_failure (recog : Bool → Nat → String)
    (h : pyLen (pyStrip (extractTextFromImage recog)) < 10) :
    processImage recog = .failure := by
  unfold processImage
  rw [if_pos]
  exact Or.inr h

/-- Witness for C7: the all-blank recognizer. -/
theorem c7_short_ocr_failure_witness :
    pyLen (pyStrip (extractTextFromImage recogBlank)) < 10 ∧
    processImage recogBlank = .failure :=
  ⟨by decide, c7_short_ocr_failure recogBlank (by decide)⟩

/-- The configuration-loop result in closed form. -/
theorem psmLoop_closed (recog : Bool → Nat → String) (t0 : String) :
    psmLoop recog t0 [6, 11, 12] =
      (if pyLen (pyStrip (recog true 6)) > 50 then recog true 6
       else if pyLen (pyStrip (recog true 11)) > 50 then recog true 11
       else recog true 12) := by
  simp only [psmLoop]
  split
  · rfl
  · split
    · rfl
    · split <;> rfl

/-- **C6 (counterexample)** — a page on which every preprocessed
configuration fails the 50-character bar (the last yields 30
characters), yet recognition is *not* retried on the unprocessed
original: the claimed retry condition is wrong. -/
theorem c6_retry_bar_counterexample :
    ([6, 11, 12].all (fun psm => pyLen (pyStrip (recogPage30 true psm)) ≤ 50)) = true ∧
    ocrFromPage recogPage30 ≠ recogPage30 false 6 := by
  constructor
  · decide
  · decide

/-- **C6 (amended)** — the retry on the unprocessed original bitmap with
the first configuration happens exactly when the configuration loop's
result (the first output exceeding the 50-character trimmed bar,
otherwise the last configuration's output) has trimmed length under 10 —
merely failing the 50-character bar does not trigger it; and the
standalone-image routine behaves identically. -/
theorem c6_retry_characterization (recog : Bool → Nat → String) :
    (ocrFromPage recog =
      (let loopRes :=
        if pyLen (pyStrip (recog true 6)) > 50 then recog true 6
        else if pyLen (pyStrip (recog true 11)) > 50 then recog true 11
        else recog true 12
       if pyLen (pyStrip loopRes) < 10 then
         (if pyTruthy (recog false 6) then recog false 6 else "")
       else loopRes)) ∧
    extractTextFromImage recog = ocrFromPage recog := by
  constructor
  · unfold ocrFromPage
    rw [psmLoop_closed]
    set loopRes := if pyLen (pyStrip (recog true 6)) > 50 then recog true 6
      else if pyLen (pyStrip (recog true 11)) > 50 then recog true 11
      else recog true 12 with hlr
    by_cases hsmall : pyLen (pyStrip loopRes) < 10
    · have hcond : (¬ pyTruthy loopRes ∨ pyLen (pyStrip loopRes) < 10) := Or.inr hsmall
      simp only [if_pos hcond, if_pos hsmall]
    · have hne : pyTruthy loopRes := by
        by_contra hx
        have : loopRes = "" := by
          simpa [pyTruthy] using hx
        rw [this] at hsmall
        simp [pyStrip, pyStripList, pyLen] at hsmall
      have hcond : ¬ (¬ pyTruthy loopRes ∨ pyLen (pyStrip loopRes) < 10) := by
        push_neg
        exact ⟨by simpa using hne, Nat.le_of_not_lt hsmall⟩
      simp only [if_neg hcond, if_neg hsmall, if_pos hne]
  · rfl

/-- The field-typing predicate of a line-item member entry. -/
theorem liNumEntry_all (k : String) (v : Option String) :
    (liNumEntry k v).all (fun kv => !(numericKeys.contains kv.1) || kv.2.isNum) = true := by
  cases v with
  | none => rfl
  | some s =>
    simp only [liNumEntry]
    split
    · simp only [List.all_cons, List.all_nil, PyVal.isNum, Bool.or_true, Bool.and_true]
    · rfl

theorem liStrEntry_all (k : String) (v : Option String)
    (hk : numericKeys.contains k = false) :
    (liStrEntry k v).all (fun kv => !(numericKeys.contains kv.1) || kv.2.isNum) = true := by
  cases v with
  | none => rfl
  | some s =>
    simp only [liStrEntry]
    split
    · simp only [List.all_cons, List.all_nil, PyVal.isNum, hk, Bool.not_false,
        Bool.true_or, Bool.and_true]
    · rfl

/-- Every structured line item is well-typed: numeric keys carry Python
floats and `line_number` is a Python int. -/
theorem buildLineItem_typed (idx : Nat) (item : Item) :
    lineItemTyped (buildLineItem idx item) = true := by
  unfold lineItemTyped
  rw [Bool.and_eq_true]
  constructor
  · unfold buildLineItem
    have h1 : numericKeys.contains "line_number" = false := by decide
    have h2 : numericKeys.contains "product_name" = false := by decide
    simp only [PyVal.fields, List.all_append, List.all_cons, List.all_nil,
      liNumEntry_all,
      liStrEntry_all "unit" item.unit (by decide),
      liStrEntry_all "delivery_terms" item.deliveryTerms (by decide),
      h1, h2, Bool.not_false, Bool.true_or,
      Bool.and_true, Bool.true_and, and_true, true_and, and_self]
  · have hl : PyVal.getKey (buildLineItem idx item) "line_number" =
        some (if pyIsDigit (item.number.getD "") then
          PyVal.int (pyIntDigits (item.number.getD "")) else PyVal.int (idx : Int)) := by
      unfold buildLineItem
      simp only [PyVal.getKey, List.cons_append, List.lookup_cons]
      rw [show (("line_number" == "line_number") : Bool) = true from rfl]
    by_cases hd : pyIsDigit (item.number.getD "") = true
    · rw [if_pos hd] at hl
      rw [hl]
    · rw [if_neg hd] at hl
      rw [hl]

/-- **C9 (counterexample)** — a concrete record in which the numeric
line-item member `line_number` is a Python int, not a float: the claim
"every numeric line-item member is a floating-point number" fails on
it (ints and floats are distinct Python types and serialize
differently). -/
theorem c9_line_number_int_counterexample :
    ((extractLineItemsStructured tableScanText).head?.bind
      (fun li => li.getKey "line_number")) = some (.int 1) ∧
    PyVal.isNum (.int 1) = false := by
  constructor
  · rfl
  · rfl

/-- **C9 (amended)** — `_clean_number` strips space thousands
separators and converts the decimal comma before parsing
(`"243 375,00" ↦ 243375.00`, `"1 659 649,00" ↦ 1659649.00`), and in
every output record every numeric line-item member *other than*
`line_number` (quantity, unit price, amounts, VAT, total) is a
floating-point number, never a string, while `line_number` is always a
Python int. -/
theorem c9_numeric_members :
    cleanNumber "243 375,00" = .finite 243375 ∧
    cleanNumber "1 659 649,00" = .finite 1659649 ∧
    ∀ text : String, (extractLineItemsStructured text).all lineItemTyped = true := by
  refine ⟨rfl, rfl, ?_⟩
  intro text
  unfold extractLineItemsStructured
  split
  · rfl
  · rw [List.all_eq_true]
    intro li hli
    rw [List.mem_map] at hli
    obtain ⟨p, _, rfl⟩ := hli
    exact buildLineItem_typed (p.1 + 1) p.2

/-- **C3 (code_bug)** — evaluation at the failing input: line 2
(`"1 Товары разные 2"`) lacks trailing amounts and is merged with line 3
(`"шт 10,00 20,00"`), and the merged line yields the first item; but the
`i += 1` meant to advance the scan past the merged line has no effect on
a Python `for … in enumerate(…)` loop, so line 3 — already consumed by
the merge — is processed again as its own candidate row and emits a
second, spurious item built from its own text. -/
theorem c3_merge_reprocesses_consumed_line :
    extractItems tableScanText = some [
      { number := some "1", name := some "Товары разные", quantity := some "2",
        unit := some "шт", deliveryTerms := none, priceWithoutVat := some "10.00",
        amountWithoutVat := some "20.00", vatAmount := none,
        totalWithVat := some "20.00" },
      { number := some "1", name := some "шт 10,00 20,00", quantity := some "00",
        unit := some "шт", deliveryTerms := none, priceWithoutVat := some "10.00",
        amountWithoutVat := some "20.00", vatAmount := none,
        totalWithVat := some "20.00" }] ∧
    pySplitNl tableScanText = ["перечень товаров", "1 Товары разные 2", "шт 10,00 20,00"] := by
  constructor
  · rfl
  · rfl

/-- **C4 (counterexample)** — a document whose supplier block (index 0)
precedes its buyer block (anchor `покупатель` at index 21), on which the
seller extractor returns `ООО ТД "Зенит"`, a value whose only occurrence
in the text starts at index 52 — after the buyer anchor. -/
theorem c4_seller_after_buyer_counterexample :
    pyFind crossSectionText "поставщик" = 0 ∧
    pyFind crossSectionText "покупатель" = 21 ∧
    extractField none "seller" crossSectionText = some "ООО ТД \"Зенит\"" ∧
    occIdxs "ООО ТД \"Зенит\"" crossSectionText = [52] := by
  refine ⟨rfl, rfl, ?_, ?_⟩
  · rfl
  · rfl

/-- **C4 (amended)** — only two of the sixteen seller patterns (and none
of the buyer patterns) carry the negative lookahead, so the
disambiguation is not a guarantee: there is a document with a supplier
block followed later by a buyer block for which the seller extractor
returns a value located strictly after the buyer's anchor keyword. -/
theorem c4_seller_bleed_possible :
    (sellerPatterns.filter (fun p => pyContains p "(?!")).length = 2 ∧
    (buyerPatterns.filter (fun p => pyContains p "(?!")).length = 0 ∧
    ∃ (text value : String),
      0 ≤ pyFind text "поставщик" ∧
      pyFind text "поставщик" < pyFind text "покупатель" ∧
      extractField none "seller" text = some value ∧
      occIdxs value text ≠ [] ∧
      ∀ i ∈ occIdxs value text, pyFind text "покупатель" < (i : Int) := by
  refine ⟨rfl, rfl, crossSectionText, "ООО ТД \"Зенит\"", by decide, by decide, by rfl, ?_, ?_⟩
  · intro h
    have : ([52] : List Nat) = [] := by
      rw [show occIdxs "ООО ТД \"Зенит\"" crossSectionText = [52] from rfl] at h
      exact h
    cases this
  · intro i hi
    rw [show occIdxs "ООО ТД \"Зенит\"" crossSectionText = [52] from rfl] at hi
    rw [List.mem_singleton] at hi
    subst hi
    rw [show pyFind crossSectionText "покупатель" = 21 from rfl]
    decide

/-- A validator that never reports a low-confidence implausibility
always accepts. -/
theorem mlAccepts_of_nonblocking (v : ValidatorFn)
    (hv : ∀ f a t b c, v f a t = .ok (b, c) → b = true ∨ (1:ℚ)/2 ≤ c)
    (f a t : String) : mlAccepts (some v) f a t = true := by
  unfold mlAccepts
  rcases heq : v f a t with e | bc
  · simp [heq]
  · obtain ⟨b, c⟩ := bc
    rcases hv f a t b c heq with hb | hc
    · subst hb
      simp [heq]
    · simp only [heq, Bool.not_eq_true', decide_eq_false_iff_not, not_and, not_lt]
      intro _
      exact hc

/-- **C5** — the optional ML validator is strictly fail-open: with no
validator configured the behaviour is the baseline, and any validator
that never reports (implausible, confidence < 0.5) — in particular one
that raises on every call — leaves every extracted field unchanged;
a candidate can be rejected only by an `(is_valid=False, confidence<0.5)`
verdict. -/
theorem c5_validator_fail_open (v : ValidatorFn) (fieldName text : String)
    (hv : ∀ f a t b c, v f a t = .ok (b, c) → b = true ∨ (1:ℚ)/2 ≤ c) :
    extractField (some v) fieldName text = extractField none fieldName text := by
  unfold extractField
  generalize (patternsTable.lookup fieldName).getD [] = pats
  induction pats with
  | nil => rfl
  | cons p rest ih =>
    rcases hm : research flagsIM p text with _ | m
    · simp only [extractFieldGo, hm]
      exact ih
    · simp only [extractFieldGo, hm]
      unfold extractFieldStep
      rcases hc : fieldCandidate fieldName text m with _ | value
      · exact ih
      · simp only [mlAccepts_of_nonblocking v hv fieldName value text]
        rfl

/-- Witness for C5: the always-raising validator on a concrete
document leaves the seller extraction unchanged. -/
theorem c5_validator_fail_open_witness :
    extractField (some errValidator) "seller"
        "Поставщик: ООО \"Ромашка\" ИНН 1234567890" =
      extractField none "seller" "Поставщик: ООО \"Ромашка\" ИНН 1234567890" :=
  c5_validator_fail_open errValidator "seller" _
    (fun f a t b c h => by simp [errValidator] at h)

/-- A surviving invoice-number candidate is the whitespace-collapsed
strip of a capture whose strip was at most 10 characters long. -/
theorem fieldCandidate_invoice_len (text : String) (m : PyMatch) (v : String)
    (h : fieldCandidate "invoice_number" text m = some v) : pyLen v ≤ 10 := by
  simp only [fieldCandidate, String.reduceEq, true_and, false_and, false_or, or_self,
    reduceIte] at h
  split at h
  · cases h
  · rename_i value heq
    split at h
    · cases h
    · split at h
      · cases h
      · rename_i hgt
        injection h with hv
        subst hv
        have h1 := subWsSpace_length_le (pyStrip value)
        omega

/-- The pattern loop preserves the invoice-number length bound. -/
theorem extractFieldGo_invoice_len (validator : Option ValidatorFn)
    (text : String) (pats : List String) (v : String)
    (h : extractFieldGo validator "invoice_number" text pats = some v) :
    pyLen v ≤ 10 := by
  induction pats with
  | nil => cases h
  | cons p rest ih =>
    unfold extractFieldGo at h
    split at h
    · exact ih h
    · rename_i m _
      split at h
      · rename_i value hstep
        injection h with hval
        subst hval
        unfold extractFieldStep at hstep
        split at hstep
        · cases hstep
        · rename_i value' hcand
          split at hstep
          · injection hstep with he
            subst he
            exact fieldCandidate_invoice_len text m _ hcand
          · cases hstep
      · exact ih h

/-- **C8** — field extraction is first-match-wins: whenever the head
pattern of a field's list matches and its candidate survives
post-processing and validation, that candidate is the final value, the
remaining patterns notwithstanding; and for the invoice-number field
every stripped capture longer than 10 characters is rejected, so an
extracted invoice number always has length at most 10. -/
theorem c8_invoice_number_bound :
    (∀ (validator : Option ValidatorFn) (fieldName text p : String)
        (rest : List String) (m : PyMatch) (v : String),
      patternsTable.lookup fieldName = some (p :: rest) →
      research flagsIM p text = some m →
      extractFieldStep validator fieldName text m = some v →
      extractField validator fieldName text = some v) ∧
    (∀ (validator : Option ValidatorFn) (text v : String),
      extractField validator "invoice_number" text = some v → pyLen v ≤ 10) := by
  constructor
  · intro validator fieldName text p rest m v hlk hre hstep
    unfold extractField
    rw [hlk]
    show extractFieldGo validator fieldName text (p :: rest) = some v
    simp only [extractFieldGo, hre, hstep]
  · intro validator text v h
    exact extractFieldGo_invoice_len validator text _ v h

/-- Witness for C8 on a concrete document: the head invoice-number
pattern matches, its candidate survives, and the result is that
candidate, of length at most 10. -/
theorem c8_invoice_number_bound_witness :
    extractField none "invoice_number" "Счет на оплату № 555" = some "555" ∧
    pyLen "555" ≤ 10 := by
  constructor
  · exact c8_invoice_number_bound.1 none "invoice_number" "Счет на оплату № 555"
      "сч[ёе]т[а-я]*\\s+на\\s+оплату\\s+№\\s*([\\d/]+)"
      ["сч[ёе]т[а-я]*\\s*№\\s*([\\d/]+)",
       "сч[ёе]т[а-я]*-оферта\\s+(\\d+)",
       "сч[ёе]т[а-я]*-фактура\\s+№\\s*(\\d+)",
       "(?:сч[ёе]т[а-я]*|invoice)\\s*[:\\-]?\\s*№?\\s*([\\d/]\x7b1,15\x7d)(?!\\d)",
       "invoice\\s*#?\\s*(\\d\x7b1,10\x7d)",
       "№\\s*([\\d/]+)"]
      ⟨0, 20, [(1, 17, 20)]⟩ "555" rfl rfl rfl
  · exact c8_invoice_number_bound.2 none "Счет на оплату № 555" "555"
      (c8_invoice_number_bound.1 none "invoice_number" "Счет на оплату № 555"
        "сч[ёе]т[а-я]*\\s+на\\s+оплату\\s+№\\s*([\\d/]+)"
        ["сч[ёе]т[а-я]*\\s*№\\s*([\\d/]+)",
         "сч[ёе]т[а-я]*-оферта\\s+(\\d+)",
         "сч[ёе]т[а-я]*-фактура\\s+№\\s*(\\d+)",
         "(?:сч[ёе]т[а-я]*|invoice)\\s*[:\\-]?\\s*№?\\s*([\\d/]\x7b1,15\x7d)(?!\\d)",
         "invoice\\s*#?\\s*(\\d\x7b1,10\x7d)",
         "№\\s*([\\d/]+)"]
        ⟨0, 20, [(1, 17, 20)]⟩ "555" rfl rfl rfl)

/-- **C1 (counterexample)** — on the empty document, the record returned
by `extract_invoice_data` contains the member chain
`customer.contract.number` with value `None`: a present member holds a
null value (the customer section always carries a `contract` member,
`{'number': None, 'date': None}` when no contract is found, and
`_clean_result` does not recurse). -/
theorem c1_nested_null_counterexample :
    (((extractInvoiceData "").getKey "customer").bind
      (fun c => c.getKey "contract")).bind (fun c => c.getKey "number") =
      some PyVal.null := by
  rfl

/-- **C1 (amended)** — pruning holds at the top level only: no top-level
member of the returned record is null or an empty mapping/list; but it
does not recurse, and on the empty document the customer section is
exactly `{'contract': {'number': None, 'date': None}}`, nested nulls
included. -/
theorem c1_top_level_pruning :
    (∀ text : String,
      ((extractInvoiceData text).fields.all (fun kv => presentVal kv.2)) = true) ∧
    (extractInvoiceData "").getKey "customer" =
      some (.dict [("contract", .dict [("number", .null), ("date", .null)])]) := by
  constructor
  · intro text
    exact all_filter (fun (kv : String × PyVal) => presentVal kv.2) _
  · rfl

/-- A native-loop step, expressed through the spec-side per-page slot
choice. -/
theorem nativeStep_eq (ocrPage : Nat → String) (pageNum : Nat)
    (text? : Option String) (acc : List String × Nat) :
    nativeStep ocrPage pageNum text? acc =
      (match pageChoiceSpec ocrPage pageNum text? with
       | some s => (acc.1 ++ [s.1], acc.2 + s.2)
       | none => acc) := by
  rcases acc with ⟨ft, tot⟩
  cases text? with
  | some t =>
    by_cases h1 : pyTruthy t ∧ pyLen (pyStrip t) > 50
    · simp [nativeStep, pageChoiceSpec, h1]
    · by_cases h2 : pyTruthy (ocrPage pageNum)
      · simp [nativeStep, pageChoiceSpec, h1, h2]
      · simp [nativeStep, pageChoiceSpec, h1, h2]
  | none =>
    by_cases h2 : pyTruthy (ocrPage pageNum)
    · simp [nativeStep, pageChoiceSpec, h2]
    · simp [nativeStep, pageChoiceSpec, h2]

/-- The native page loop accumulates exactly the spec-side slots. -/
theorem nativePassGo_eq (ocrPage : Nat → String) (l : List (Option String)) :
    ∀ (pn : Nat) (ft : List String) (tot : Nat),
      nativePassGo ocrPage pn l (ft, tot) =
        (ft ++ (slotsFrom ocrPage pn l).map Prod.fst,
         tot + ((slotsFrom ocrPage pn l).map Prod.snd).sum) := by
  induction l with
  | nil =>
    intro pn ft tot
    simp [nativePassGo, slotsFrom]
  | cons t rest ih =>
    intro pn ft tot
    simp only [nativePassGo, slotsFrom]
    rw [nativeStep_eq]
    cases hch : pageChoiceSpec ocrPage pn t with
    | none => rw [ih]
    | some s =>
      rw [ih]
      simp [List.append_assoc, Nat.add_assoc]

/-- **C2** — the OCR fallback ladder: a native pass keeps a page's
native text iff its trimmed length exceeds 50 characters, otherwise that
single page's OCR output is merged at the page's position (pages with
empty OCR output are dropped), with the aggregate counting each kept
slot's trimmed length; and whenever the aggregate is under 100
characters, every native-layer result (both readers seeing the same
per-page texts) is discarded and OCR is re-run over every page of the
document. -/
theorem c2_native_ocr_ladder (pages : List (Option String))
    (ocrPage : Nat → String) (recogOf : Nat → Bool → Nat → String) (nPages : Nat) :
    nativePass pages ocrPage = nativePassSpec pages ocrPage ∧
    ((nativePass pages (fun pn => ocrFromPage (recogOf pn))).2 < 100 →
      extractText pages pages recogOf nPages = extractTextWithOcrFull nPages recogOf) := by
  constructor
  · unfold nativePass nativePassSpec
    rw [nativePassGo_eq]
    simp
  · intro h
    unfold extractText
    rcases hnp : nativePass pages (fun pn => ocrFromPage (recogOf pn)) with ⟨r1, t1⟩
    rw [hnp] at h
    have hcond : ¬ (pyTruthy (pyStrip r1) ∧ t1 > 100) := by
      rintro ⟨_, hgt⟩
      simp only at h
      omega
    simp only [hnp, if_neg hcond]

/-- Witness for C2: a one-page document whose native text is short and
whose OCR finds nothing — the aggregate is 0 and whole-document OCR is
the result. -/
theorem c2_native_ocr_ladder_witness :
    (nativePass [some "short"] (fun pn => ocrFromPage ((fun _ => recogBlank) pn))).2 < 100 ∧
    extractText [some "short"] [some "short"] (fun _ => recogBlank) 1 =
      extractTextWithOcrFull 1 (fun _ => recogBlank) := by
  refine ⟨by decide, ?_⟩
  exact (c2_native_ocr_ladder [some "short"] (fun pn => ocrFromPage recogBlank)
    (fun _ => recogBlank) 1).2 (by decide)

end Invoice
